import Mathlib

/-!
Verification of the shared caching / auth / player layer of a Spotify
"music league" browser client.  The TypeScript sources are shallowly
embedded: pure functions become Lean functions, stateful operations become
explicit state passing, async interleavings become explicit schedules, and
the paginated network is a function from offsets to pages.  All machine
numbers of the source (epoch milliseconds, statuses, counts) are modelled
as `Int` / `Nat`; backoff delays carry a rational jitter.
-/

namespace MusicLeague

/-! ## Track data model (rounds/types, as used by spotify-api.ts) -/

/-- An artist as embedded in a `SpotifyTrack`: a display name and an
optional Spotify id (`a.id` may be `undefined` in the source). -/
structure SpotifyArtist where
  name : String
  id : Option String
deriving Repr, DecidableEq

/-- One album artwork entry. -/
structure AlbumImage where
  url : String
deriving Repr, DecidableEq

/-- Album data carried by a full track record. -/
structure Album where
  name : String
  release_date : String
  images : List AlbumImage
deriving Repr, DecidableEq

/-- A full track record as returned by the remote API. -/
structure SpotifyTrack where
  id : String
  name : String
  artists : List SpotifyArtist
  album : Album
  uri : String
  duration_ms : Int
deriving Repr, DecidableEq

/-- The minimized track shape persisted to the cache.  `artists` and
`artistIds` are the artist names / ids joined with the delimiter `", "`;
an absent id list is represented by the empty string, matching the
JavaScript falsiness test `cached.artistIds ? ... : []`. -/
structure CachedTrack where
  id : String
  name : String
  artists : String
  artistIds : String
  albumName : String
  releaseDate : String
  imageUrl : String
  uri : String
  durationMs : Int
deriving Repr, DecidableEq

/-- JavaScript `array.join(', ')`, written by direct recursion so that the
delimiter structure is available to proofs. -/
def joinComma : List String → String
  | [] => ""
  | [a] => a
  | a :: b :: rest => a ++ ", " ++ joinComma (b :: rest)

/-- Character-level scanner for `splitComma`: splits at every leftmost
non-overlapping occurrence of `", "`, accumulating the current segment in
reverse.  Structural recursion keeps it kernel-evaluable. -/
def splitCommaAux : List Char → List Char → List (List Char)
  | [], acc => [acc.reverse]
  | ',' :: ' ' :: rest, acc => acc.reverse :: splitCommaAux rest []
  | c :: rest, acc => splitCommaAux rest (c :: acc)

/-- JavaScript `string.split(', ')`: leftmost non-overlapping matches,
and `"".split(sep) = [""]`. -/
def splitComma (s : String) : List String :=
  (splitCommaAux s.data []).map String.mk

/-- JavaScript `s || ''` on an optional string. -/
def jsStringOrEmpty (o : Option String) : String :=
  o.getD ""

/-- JavaScript `s || undefined` on a string. -/
def jsStringOrNone (s : String) : Option String :=
  if s = "" then none else some s

/-- Embedding of `toMinimalTrack` (spotify-api.ts). -/
def toMinimalTrack (track : SpotifyTrack) : CachedTrack :=
  { id := track.id
    name := track.name
    artists := joinComma (track.artists.map (·.name))
    artistIds := joinComma (track.artists.map (fun a => jsStringOrEmpty a.id))
    albumName := track.album.name
    releaseDate := track.album.release_date
    imageUrl := jsStringOrEmpty (track.album.images.head?.map (·.url))
    uri := track.uri
    durationMs := track.duration_ms }

/-- Embedding of `fromMinimalTrack` (spotify-api.ts).  `artistIds[index]`
out of range is JavaScript `undefined`, hence the `getD` followed by the
`|| undefined` coercion. -/
def fromMinimalTrack (cached : CachedTrack) : SpotifyTrack :=
  let artistNames := splitComma cached.artists
  let artistIds := if cached.artistIds = "" then [] else splitComma cached.artistIds
  { id := cached.id
    name := cached.name
    artists := artistNames.enum.map (fun p =>
      { name := p.2, id := jsStringOrNone (artistIds.getD p.1 "") })
    album :=
      { name := cached.albumName
        release_date := cached.releaseDate
        images := if cached.imageUrl = "" then [] else [⟨cached.imageUrl⟩] }
    uri := cached.uri
    duration_ms := cached.durationMs }

/-! ### Helper lemmas for the round-trip claim -/

theorem joinComma_length_ge (a b : String) (rest : List String) :
    2 ≤ (joinComma (a :: b :: rest)).length := by
  have hsep : (", " : String).length = 2 := rfl
  induction rest generalizing a b with
  | nil =>
    simp [joinComma, String.length_append, hsep]
    omega
  | cons c rest ih =>
    have h := ih b c
    simp [joinComma, String.length_append, hsep] at h ⊢
    omega

theorem joinComma_ne_empty (a b : String) (rest : List String) :
    joinComma (a :: b :: rest) ≠ "" := by
  intro h
  have h2 := joinComma_length_ge a b rest
  rw [h] at h2
  simp at h2

theorem jsStringOrEmpty_jsStringOrNone (s : String) :
    jsStringOrEmpty (jsStringOrNone s) = s := by
  by_cases h : s = "" <;> simp [jsStringOrNone, jsStringOrEmpty, h]

/-- Mapping positional lookup over `enumFrom n` of a list recovers the
`drop n` of the looked-up list, given matching lengths. -/
theorem enumFrom_map_getD {α : Type} (d : α) (l : List String) :
    ∀ (n : Nat) (ids : List α), ids.length = n + l.length →
      (l.enumFrom n).map (fun p => ids.getD p.1 d) = ids.drop n := by
  induction l with
  | nil =>
    intro n ids h
    simp at h
    simp [List.drop_eq_nil_iff, h]
  | cons a as ih =>
    intro n ids h
    have hn : n < ids.length := by simp at h; omega
    rw [List.enumFrom_cons, List.map_cons, ih (n + 1) ids (by simp at h ⊢; omega),
      List.drop_eq_getElem_cons hn, List.getD_eq_getElem ids d hn]

/-- Mapping positional lookup over an enumeration of an equally long list
recovers that list. -/
theorem enum_map_getD {α : Type} (l : List String) (ids : List α) (d : α)
    (h : ids.length = l.length) :
    l.enum.map (fun p => ids.getD p.1 d) = ids := by
  have := enumFrom_map_getD d l 0 ids (by omega)
  simpa [List.enum] using this

/-- Characterization of the artist list after a minimize/expand round
trip, assuming only that the joined name and id strings split back to the
original lists (id list conditionally, matching the code's emptiness
test). -/
theorem fromMinimal_artists_char (t : SpotifyTrack)
    (h1 : splitComma (joinComma (t.artists.map (·.name))) = t.artists.map (·.name))
    (h2 : joinComma (t.artists.map (fun a => jsStringOrEmpty a.id)) ≠ "" →
      splitComma (joinComma (t.artists.map (fun a => jsStringOrEmpty a.id)))
        = t.artists.map (fun a => jsStringOrEmpty a.id)) :
    (fromMinimalTrack (toMinimalTrack t)).artists
      = (t.artists.map (·.name)).enum.map (fun p =>
          { name := p.2
            id := jsStringOrNone
              ((t.artists.map (fun a => jsStringOrEmpty a.id)).getD p.1 "") }) := by
  obtain ⟨tid, tname, tartists, talbum, turi, tdur⟩ := t
  dsimp only at h1 h2 ⊢
  by_cases hempty : joinComma (tartists.map (fun a => jsStringOrEmpty a.id)) = ""
  · rcases tartists with _ | ⟨a, _ | ⟨b, rest⟩⟩
    · simp only [List.map_nil] at h1
      have hnil : splitComma (joinComma []) = [""] := rfl
      rw [hnil] at h1
      exact absurd h1 (by simp)
    · have hid : jsStringOrEmpty a.id = "" := by
        simpa [joinComma] using hempty
      have hsplit : splitComma a.name = [a.name] := by
        simpa [joinComma] using h1
      simp [fromMinimalTrack, toMinimalTrack, joinComma, hid, hsplit, jsStringOrNone]
    · exact absurd hempty (by
        simpa using joinComma_ne_empty (jsStringOrEmpty a.id) (jsStringOrEmpty b.id)
          (rest.map (fun a => jsStringOrEmpty a.id)))
  · simp only [fromMinimalTrack, toMinimalTrack]
    rw [if_neg hempty, h1, h2 hempty]

/-- Re-minimizing the expanded artist list yields the original joined
strings, given the split/join round-trip hypotheses. -/
theorem fromMinimal_artists_remin (t : SpotifyTrack)
    (h1 : splitComma (joinComma (t.artists.map (·.name))) = t.artists.map (·.name))
    (h2 : joinComma (t.artists.map (fun a => jsStringOrEmpty a.id)) ≠ "" →
      splitComma (joinComma (t.artists.map (fun a => jsStringOrEmpty a.id)))
        = t.artists.map (fun a => jsStringOrEmpty a.id)) :
    (fromMinimalTrack (toMinimalTrack t)).artists.map (·.name) = t.artists.map (·.name)
    ∧ (fromMinimalTrack (toMinimalTrack t)).artists.map (fun a => jsStringOrEmpty a.id)
        = t.artists.map (fun a => jsStringOrEmpty a.id) := by
  rw [fromMinimal_artists_char t h1 h2]
  constructor
  · rw [List.map_map]
    have : ((fun (a : SpotifyArtist) => a.name) ∘ fun p : Nat × String =>
        ({ name := p.2
           id := jsStringOrNone
             ((t.artists.map (fun a => jsStringOrEmpty a.id)).getD p.1 "") } : SpotifyArtist))
        = Prod.snd := by
      funext p; rfl
    rw [this, List.enum_map_snd]
  · rw [List.map_map]
    have : ((fun (a : SpotifyArtist) => jsStringOrEmpty a.id) ∘ fun p : Nat × String =>
        ({ name := p.2
           id := jsStringOrNone
             ((t.artists.map (fun a => jsStringOrEmpty a.id)).getD p.1 "") } : SpotifyArtist))
        = fun p : Nat × String =>
            (t.artists.map (fun a => jsStringOrEmpty a.id)).getD p.1 "" := by
      funext p
      exact jsStringOrEmpty_jsStringOrNone _
    rw [this]
    exact enum_map_getD _ _ _ (by simp)

/-- Projection of the expanded album image list. -/
theorem fromMinimal_images (c : CachedTrack) :
    (fromMinimalTrack c).album.images
      = if c.imageUrl = "" then [] else [⟨c.imageUrl⟩] := rfl

/-- Re-reading the single degraded image entry recovers the stored url. -/
theorem imageUrl_of_degraded (v : String) :
    jsStringOrEmpty
        ((if v = "" then ([] : List AlbumImage) else [⟨v⟩]).head?.map (·.url)) = v := by
  by_cases h : v = "" <;> simp [jsStringOrEmpty, h]

/-- C2 (amended): for every track whose joined artist-name and artist-id
strings split back to the original lists on the `", "` delimiter (in
particular whenever no artist name or id contains `", "` and the artist
list is nonempty), the projection pair satisfies
`minimize (expand (minimize t)) = minimize t`, and `expand (minimize t)`
preserves id, name, uri, durationMs, the ordered artist names, and album
name and releaseDate; the image list degrades to at most one entry: the
first image's url when that url is nonempty, empty otherwise. -/
theorem track_minimize_roundtrip (t : SpotifyTrack) (u : String)
    (h1 : splitComma (joinComma (t.artists.map (·.name))) = t.artists.map (·.name))
    (h2 : joinComma (t.artists.map (fun a => jsStringOrEmpty a.id)) ≠ "" →
      splitComma (joinComma (t.artists.map (fun a => jsStringOrEmpty a.id)))
        = t.artists.map (fun a => jsStringOrEmpty a.id)) :
    toMinimalTrack (fromMinimalTrack (toMinimalTrack t)) = toMinimalTrack t
    ∧ (fromMinimalTrack (toMinimalTrack t)).id = t.id
    ∧ (fromMinimalTrack (toMinimalTrack t)).name = t.name
    ∧ (fromMinimalTrack (toMinimalTrack t)).uri = t.uri
    ∧ (fromMinimalTrack (toMinimalTrack t)).duration_ms = t.duration_ms
    ∧ (fromMinimalTrack (toMinimalTrack t)).artists.map (·.name)
        = t.artists.map (·.name)
    ∧ (fromMinimalTrack (toMinimalTrack t)).album.name = t.album.name
    ∧ (fromMinimalTrack (toMinimalTrack t)).album.release_date = t.album.release_date
    ∧ (fromMinimalTrack (toMinimalTrack t)).album.images.length ≤ 1
    ∧ (t.album.images = [] → (fromMinimalTrack (toMinimalTrack t)).album.images = [])
    ∧ (t.album.images.head?.map (·.url) = some u → u ≠ "" →
        (fromMinimalTrack (toMinimalTrack t)).album.images = [⟨u⟩]) := by
  obtain ⟨hnames, hids⟩ := fromMinimal_artists_remin t h1 h2
  refine ⟨?_, rfl, rfl, rfl, rfl, hnames, rfl, rfl, ?_, ?_, ?_⟩
  · calc toMinimalTrack (fromMinimalTrack (toMinimalTrack t))
        = { id := t.id
            name := t.name
            artists :=
              joinComma ((fromMinimalTrack (toMinimalTrack t)).artists.map (·.name))
            artistIds :=
              joinComma ((fromMinimalTrack (toMinimalTrack t)).artists.map
                (fun a => jsStringOrEmpty a.id))
            albumName := t.album.name
            releaseDate := t.album.release_date
            imageUrl :=
              jsStringOrEmpty
                ((fromMinimalTrack (toMinimalTrack t)).album.images.head?.map (·.url))
            uri := t.uri
            durationMs := t.duration_ms } := rfl
      _ = toMinimalTrack t := by
          rw [hnames, hids, fromMinimal_images, imageUrl_of_degraded]
          rfl
  · rw [fromMinimal_images]
    by_cases h : (toMinimalTrack t).imageUrl = "" <;> simp [h]
  · intro h
    rw [fromMinimal_images]
    have : (toMinimalTrack t).imageUrl = "" := by
      simp [toMinimalTrack, jsStringOrEmpty, h]
    simp [this]
  · intro hu hne
    rw [fromMinimal_images]
    have : (toMinimalTrack t).imageUrl = u := by
      simp [toMinimalTrack, jsStringOrEmpty, hu]
    rw [this, if_neg hne]

/-- A track whose single artist name contains the `", "` delimiter. -/
def trackWithDelimiterName : SpotifyTrack :=
  { id := "t1"
    name := "song"
    artists := [{ name := "a, b", id := some "x" }]
    album := { name := "alb", release_date := "1999", images := [] }
    uri := "spotify:track:t1"
    duration_ms := 1000 }

/-- C2 counterexample: for the track with the single artist `"a, b"`
(id `"x"`), re-minimizing the expansion does not recover the minimized
record (the artistIds string becomes `"x, "`), and the expanded artist
name list `["a", "b"]` differs from the original `["a, b"]`, refuting the
unconditional round-trip/preservation claim. -/
theorem track_minimize_roundtrip_counterexample :
    toMinimalTrack (fromMinimalTrack (toMinimalTrack trackWithDelimiterName))
        ≠ toMinimalTrack trackWithDelimiterName
    ∧ (fromMinimalTrack (toMinimalTrack trackWithDelimiterName)).artists.map (·.name)
        ≠ trackWithDelimiterName.artists.map (·.name) := by
  constructor <;> decide

/-- Sample two-artist track used to witness the amended round trip. -/
def sampleRoundtripTrack : SpotifyTrack :=
  { id := "t2"
    name := "tune"
    artists := [{ name := "Alpha", id := some "x" }, { name := "Beta", id := none }]
    album := { name := "rec", release_date := "2001", images := [⟨"img1"⟩, ⟨"img2"⟩] }
    uri := "spotify:track:t2"
    duration_ms := 2000 }

/-- Witness instantiating the amended round-trip theorem at a concrete
two-artist track. -/
theorem track_minimize_roundtrip_witness :
    toMinimalTrack (fromMinimalTrack (toMinimalTrack sampleRoundtripTrack))
        = toMinimalTrack sampleRoundtripTrack
    ∧ (fromMinimalTrack (toMinimalTrack sampleRoundtripTrack)).id = sampleRoundtripTrack.id
    ∧ (fromMinimalTrack (toMinimalTrack sampleRoundtripTrack)).name
        = sampleRoundtripTrack.name
    ∧ (fromMinimalTrack (toMinimalTrack sampleRoundtripTrack)).uri
        = sampleRoundtripTrack.uri
    ∧ (fromMinimalTrack (toMinimalTrack sampleRoundtripTrack)).duration_ms
        = sampleRoundtripTrack.duration_ms
    ∧ (fromMinimalTrack (toMinimalTrack sampleRoundtripTrack)).artists.map (·.name)
        = sampleRoundtripTrack.artists.map (·.name)
    ∧ (fromMinimalTrack (toMinimalTrack sampleRoundtripTrack)).album.name
        = sampleRoundtripTrack.album.name
    ∧ (fromMinimalTrack (toMinimalTrack sampleRoundtripTrack)).album.release_date
        = sampleRoundtripTrack.album.release_date
    ∧ (fromMinimalTrack (toMinimalTrack sampleRoundtripTrack)).album.images.length ≤ 1
    ∧ (sampleRoundtripTrack.album.images = [] →
        (fromMinimalTrack (toMinimalTrack sampleRoundtripTrack)).album.images = [])
    ∧ (sampleRoundtripTrack.album.images.head?.map (·.url) = some "img1" → "img1" ≠ "" →
        (fromMinimalTrack (toMinimalTrack sampleRoundtripTrack)).album.images
          = [⟨"img1"⟩]) :=
  track_minimize_roundtrip sampleRoundtripTrack "img1" (by decide) (by decide)

/-! ## Paginated fetching (fetchLibraryTracks / fetchPlaylistTracks /
fetchUserPlaylists network loops) -/

/-- A playlist record as returned by the playlists listing endpoint. -/
structure SpotifyPlaylist where
  id : String
  name : String
  tracksTotal : Nat
deriving Repr, DecidableEq

/-- One page of a paginated listing response: the page's items and the
`total` the remote declares for the whole collection. -/
structure Page (ι : Type) where
  items : List ι
  total : Nat
deriving Repr

/-- Outcome of a completed pagination loop: accumulated records, number
of page requests issued, and the `(current, total)` pairs reported to the
progress callback after each page. -/
structure FetchResult (α : Type) where
  tracks : List α
  requests : Nat
  progress : List (Nat × Nat)
deriving Repr, DecidableEq

/-- Embedding of the `while (true)` pagination loop shared by
`fetchLibraryTracks`, `fetchUserPlaylists` and `fetchPlaylistTracks`:
request the page at `offset`, run the per-page item processing (`process`
is the identity for the library and playlists listings, null-filtering
for playlist tracks), append, report progress, stop once the accumulated
count reaches the declared total, otherwise advance `offset` by `limit`.
`fuel` bounds the number of iterations so the function is total; `none`
means the loop was still running after `fuel` requests. -/
def paginationLoop {ι α : Type} (process : List ι → List α) (source : Nat → Page ι)
    (limit : Nat) : Nat → Nat → List α → List (Nat × Nat) → Nat → Option (FetchResult α)
  | 0, _, _, _, _ => none
  | fuel + 1, offset, acc, prog, reqs =>
    let page := source offset
    let acc2 := acc ++ process page.items
    let prog2 := prog ++ [(acc2.length, page.total)]
    if page.total ≤ acc2.length then some ⟨acc2, reqs + 1, prog2⟩
    else paginationLoop process source limit fuel (offset + limit) acc2 prog2 (reqs + 1)

/-- The pagination loop of `fetchLibraryTracks` (page size 50, items
mapped through `item.track` with no filtering, per the declared response
type `{ track: SpotifyTrack }[]`). -/
def libraryLoop (source : Nat → Page SpotifyTrack) (fuel : Nat) :
    Option (FetchResult SpotifyTrack) :=
  paginationLoop (fun items => items) source 50 fuel 0 [] [] 0

/-- The library pagination loop under erased (runtime) typing, where a
response item's `track` field may be `null`: the code still pushes every
entry unchanged. -/
def libraryLoopJs (source : Nat → Page (Option SpotifyTrack)) (fuel : Nat) :
    Option (FetchResult (Option SpotifyTrack)) :=
  paginationLoop (fun items => items) source 50 fuel 0 [] [] 0

/-- The pagination loop of `fetchPlaylistTracks` (page size 100, null
tracks filtered out before accumulation). -/
def playlistTracksLoop (source : Nat → Page (Option SpotifyTrack)) (fuel : Nat) :
    Option (FetchResult SpotifyTrack) :=
  paginationLoop (fun items => items.filterMap id) source 100 fuel 0 [] [] 0

/-- The pagination loop of `fetchUserPlaylists` (page size 50, items
pushed unchanged). -/
def playlistsLoop (source : Nat → Page SpotifyPlaylist) (fuel : Nat) :
    Option (FetchResult SpotifyPlaylist) :=
  paginationLoop (fun items => items) source 50 fuel 0 [] [] 0

/-- A faithful paginated source over an underlying collection `l`: the
page at `offset` holds the next `pageSize` records and always declares
`total = l.length`. -/
def mkSource {α : Type} (l : List α) (pageSize : Nat) : Nat → Page α :=
  fun offset => ⟨(l.drop offset).take pageSize, l.length⟩

/-- Ceiling division on naturals. -/
def ceilDiv (n p : Nat) : Nat := (n + p - 1) / p

/-- Number of page requests the loop still issues when `o` records of a
collection of `n` are already accumulated (at least one request is always
issued, even for an empty collection). -/
def pagesFrom (n o p : Nat) : Nat := max 1 (ceilDiv (n - o) p)

theorem ceilDiv_le_one (n P : Nat) (hP : 0 < P) (h : n ≤ P) : ceilDiv n P ≤ 1 := by
  unfold ceilDiv
  have h2 : n + P - 1 < 2 * P := by omega
  have h3 := (Nat.div_lt_iff_lt_mul hP).mpr h2
  omega

theorem one_le_ceilDiv (n P : Nat) (hP : 0 < P) (h : 0 < n) : 1 ≤ ceilDiv n P := by
  unfold ceilDiv
  exact (Nat.one_le_div_iff hP).mpr (by omega)

theorem ceilDiv_sub_succ (n P : Nat) (hP : 0 < P) (h : P < n) :
    ceilDiv n P = ceilDiv (n - P) P + 1 := by
  unfold ceilDiv
  have h1 : n + P - 1 = (n - 1) + P := by omega
  have h2 : n - P + P - 1 = n - 1 := by omega
  rw [h1, h2, Nat.add_div_right _ hP]

theorem pagesFrom_break (n o P : Nat) (hP : 0 < P) (h : n - o ≤ P) :
    pagesFrom n o P = 1 := by
  have := ceilDiv_le_one (n - o) P hP h
  unfold pagesFrom
  omega

theorem pagesFrom_step (n o P : Nat) (hP : 0 < P) (h : P < n - o) :
    pagesFrom n o P = pagesFrom n (o + P) P + 1 := by
  have hsub : n - (o + P) = n - o - P := by omega
  have h1 := ceilDiv_sub_succ (n - o) P hP h
  have h2 := one_le_ceilDiv (n - o) P hP (by omega)
  have h3 := one_le_ceilDiv (n - o - P) P hP (by omega)
  unfold pagesFrom
  rw [hsub]
  omega

/-- Core pagination invariant: against a faithful source for a collection
of `N` records, starting at an offset already matching the accumulated
count, the loop terminates after exactly `pagesFrom N o P` further
requests with `N` accumulated records, for any page-length-preserving
item processing. -/
theorem paginationLoop_mkSource {ι α : Type} (process : List ι → List α)
    (l : List ι) (P : Nat) (hP : 0 < P)
    (hproc : ∀ o, (process ((l.drop o).take P)).length = ((l.drop o).take P).length) :
    ∀ (fuel o : Nat) (acc : List α) (prog : List (Nat × Nat)) (reqs : Nat),
      acc.length = o → (o = 0 ∨ o < l.length) →
      pagesFrom l.length o P ≤ fuel →
      (paginationLoop process (mkSource l P) P fuel o acc prog reqs).map (·.requests)
          = some (reqs + pagesFrom l.length o P)
        ∧ (paginationLoop process (mkSource l P) P fuel o acc prog reqs).map
            (fun r => r.tracks.length) = some l.length := by
  intro fuel
  induction fuel with
  | zero =>
    intro o acc prog reqs hlen ho hfuel
    exfalso
    have : 1 ≤ pagesFrom l.length o P := by unfold pagesFrom; omega
    omega
  | succ fuel ih =>
    intro o acc prog reqs hlen ho hfuel
    have hitems : (mkSource l P o).items = (l.drop o).take P := rfl
    have htotal : (mkSource l P o).total = l.length := rfl
    have hlen2 : (acc ++ process ((l.drop o).take P)).length
        = o + min P (l.length - o) := by
      rw [List.length_append, hlen, hproc o]
      simp [List.length_take]
    have hoN : o ≤ l.length := by omega
    by_cases hbreak : l.length ≤ o + min P (l.length - o)
    · have hfin : (acc ++ process ((l.drop o).take P)).length = l.length := by omega
      have hpages : pagesFrom l.length o P = 1 :=
        pagesFrom_break _ _ _ hP (by omega)
      simp only [paginationLoop, hitems, htotal]
      rw [if_pos (by rw [hlen2]; omega)]
      simp [hfin, hpages]
    · have hlt : P < l.length - o := by omega
      have hlen3 : (acc ++ process ((l.drop o).take P)).length = o + P := by omega
      have hpages := pagesFrom_step l.length o P hP hlt
      simp only [paginationLoop, hitems, htotal]
      rw [if_neg (by rw [hlen2]; omega)]
      have hrec := ih (o + P) (acc ++ process ((l.drop o).take P))
        (prog ++ [((acc ++ process ((l.drop o).take P)).length, l.length)]) (reqs + 1)
        hlen3 (Or.inr (by omega)) (by omega)
      refine ⟨?_, hrec.2⟩
      rw [hrec.1, hpages]
      congr 1
      omega

/-- A simulated playlist-tracks source whose single item is a null track
(e.g. a removed episode): declared total 1, nothing non-null to collect. -/
def nullTrackSource : Nat → Page (Option SpotifyTrack) :=
  fun offset => if offset = 0 then ⟨[none], 1⟩ else ⟨[], 1⟩

/-- On a source whose declared total counts a null item, the filtered
accumulated count never reaches the total, so the playlist-tracks loop
never finishes, whatever the iteration bound. -/
theorem playlistTracksLoop_null_runs_forever :
    ∀ (fuel offset : Nat) (prog : List (Nat × Nat)) (reqs : Nat),
      paginationLoop (fun items => items.filterMap id) nullTrackSource 100
        fuel offset [] prog reqs = none := by
  intro fuel
  induction fuel with
  | zero => intro offset prog reqs; rfl
  | succ fuel ih =>
    intro offset prog reqs
    have hitems : ((nullTrackSource offset).items).filterMap (@id (Option SpotifyTrack))
        = [] := by
      unfold nullTrackSource
      split <;> simp
    have htotal : (nullTrackSource offset).total = 1 := by
      unfold nullTrackSource
      split <;> rfl
    simp only [paginationLoop, hitems, htotal, List.append_nil, List.length_nil]
    rw [if_neg (by omega)]
    exact ih (offset + 100) _ _

theorem filterMap_id_map_some {α : Type} (l : List α) :
    (l.map some).filterMap id = l := by
  simp

/-- C4 (amended): against a faithful paginated source with `N` records
and page size `P`, both the unfiltered loop shape (library, playlists)
and the null-filtering playlist-tracks loop shape issue exactly
`max 1 ⌈N/P⌉` page requests and finish with `N` accumulated records — at
least one request is always issued, even when `N = 0`, because the total
is only learned from the first response; and null items never count
toward the accumulated count, so on a source whose declared total counts
a null item the loop never terminates (it returns `none` at every
iteration bound). -/
theorem pagination_page_requests {α : Type} (l : List α) (P fuel f2 : Nat)
    (hP : 0 < P) (hfuel : max 1 (ceilDiv l.length P) ≤ fuel) :
    ((paginationLoop (fun (items : List α) => items) (mkSource l P) P
        fuel 0 [] [] 0).map (·.requests) = some (max 1 (ceilDiv l.length P))
      ∧ (paginationLoop (fun (items : List α) => items) (mkSource l P) P
          fuel 0 [] [] 0).map (fun r => r.tracks.length) = some l.length)
    ∧ ((paginationLoop (fun (items : List (Option α)) => items.filterMap id)
          (mkSource (l.map some) P) P fuel 0 [] [] 0).map (·.requests)
            = some (max 1 (ceilDiv l.length P))
      ∧ (paginationLoop (fun (items : List (Option α)) => items.filterMap id)
          (mkSource (l.map some) P) P fuel 0 [] [] 0).map (fun r => r.tracks.length)
            = some l.length)
    ∧ paginationLoop (fun (items : List (Option SpotifyTrack)) => items.filterMap id)
        nullTrackSource 100 f2 0 [] [] 0 = none := by
  have hpf : pagesFrom l.length 0 P = max 1 (ceilDiv l.length P) := by
    unfold pagesFrom
    rw [Nat.sub_zero]
  refine ⟨?_, ?_, playlistTracksLoop_null_runs_forever f2 0 [] 0⟩
  · have h := paginationLoop_mkSource (fun (items : List α) => items) l P hP
      (fun o => rfl) fuel 0 [] [] 0 rfl (Or.inl rfl) (by omega)
    rw [hpf] at h
    simpa using h
  · have hproc : ∀ o,
        ((((l.map some).drop o).take P).filterMap (@id (Option α))).length
          = (((l.map some).drop o).take P).length := by
      intro o
      have heq : ((l.map some).drop o).take P = ((l.drop o).take P).map some := by
        rw [← List.map_drop, ← List.map_take]
      rw [heq, filterMap_id_map_some]
      simp
    have h := paginationLoop_mkSource
      (fun (items : List (Option α)) => items.filterMap id) (l.map some) P hP hproc
      fuel 0 [] [] 0 rfl (Or.inl rfl) (by simpa using (by omega : pagesFrom l.length 0 P ≤ fuel))
    rw [show (l.map some).length = l.length from by simp] at h
    rw [hpf] at h
    simpa using h

/-- C4 counterexample: for an empty collection (`N = 0`, page size 50)
the library loop issues one page request, not `⌈0/50⌉ = 0` — the code
must fetch a page before it can see the declared total. -/
theorem pagination_page_requests_counterexample :
    (libraryLoop (mkSource ([] : List SpotifyTrack) 50) 1).map (·.requests) = some 1
    ∧ ceilDiv 0 50 = 0
    ∧ (libraryLoop (mkSource ([] : List SpotifyTrack) 50) 1).map (·.requests)
        ≠ some (ceilDiv 0 50) := by
  refine ⟨rfl, rfl, ?_⟩
  decide

/-- A small sample track used to witness pagination and resync facts. -/
def sampleTrack : SpotifyTrack :=
  { id := "s1"
    name := "one"
    artists := [{ name := "Solo", id := some "ar1" }]
    album := { name := "lp", release_date := "1984", images := [] }
    uri := "spotify:track:s1"
    duration_ms := 90 }

/-- Witness instantiating the amended pagination theorem on a one-track
collection with page size 50. -/
theorem pagination_page_requests_witness :
    ((paginationLoop (fun (items : List SpotifyTrack) => items)
        (mkSource [sampleTrack] 50) 50 1 0 [] [] 0).map (·.requests)
          = some (max 1 (ceilDiv [sampleTrack].length 50))
      ∧ (paginationLoop (fun (items : List SpotifyTrack) => items)
          (mkSource [sampleTrack] 50) 50 1 0 [] [] 0).map (fun r => r.tracks.length)
            = some [sampleTrack].length)
    ∧ ((paginationLoop (fun (items : List (Option SpotifyTrack)) => items.filterMap id)
          (mkSource ([sampleTrack].map some) 50) 50 1 0 [] [] 0).map (·.requests)
            = some (max 1 (ceilDiv [sampleTrack].length 50))
      ∧ (paginationLoop (fun (items : List (Option SpotifyTrack)) => items.filterMap id)
          (mkSource ([sampleTrack].map some) 50) 50 1 0 [] [] 0).map
            (fun r => r.tracks.length) = some [sampleTrack].length)
    ∧ paginationLoop (fun (items : List (Option SpotifyTrack)) => items.filterMap id)
        nullTrackSource 100 7 0 [] [] 0 = none :=
  pagination_page_requests [sampleTrack] 50 1 7 (by decide) (by decide)

/-- Dropping null entries from every page of a source (keeping the
declared totals). -/
def stripNullItems {α : Type} (source : Nat → Page (Option α)) : Nat → Page (Option α) :=
  fun offset => ⟨(source offset).items.filter (·.isSome), (source offset).total⟩

theorem filterMap_id_filter_isSome {α : Type} (l : List (Option α)) :
    (l.filter (·.isSome)).filterMap id = l.filterMap id := by
  induction l with
  | nil => rfl
  | cons a rest ih =>
    cases a <;> simp [List.filter, ih]

/-- The playlist-tracks loop is insensitive to null entries: running it
against a source with the nulls already removed gives the identical
result (same accumulated records, same requests, same progress
reports). -/
theorem playlistTracksLoop_ignores_nulls {α : Type}
    (source : Nat → Page (Option α)) :
    ∀ (fuel offset : Nat) (acc : List α) (prog : List (Nat × Nat)) (reqs : Nat),
      paginationLoop (fun items => items.filterMap id) (stripNullItems source) 100
          fuel offset acc prog reqs
        = paginationLoop (fun items => items.filterMap id) source 100
            fuel offset acc prog reqs := by
  intro fuel
  induction fuel with
  | zero => intro offset acc prog reqs; rfl
  | succ fuel ih =>
    intro offset acc prog reqs
    have hitems : ((stripNullItems source offset).items).filterMap (@id (Option α))
        = (source offset).items.filterMap id :=
      filterMap_id_filter_isSome _
    have htotal : (stripNullItems source offset).total = (source offset).total := rfl
    simp only [paginationLoop, hitems, htotal]
    by_cases hb : (source offset).total ≤ (acc ++ (source offset).items.filterMap id).length
    · rw [if_pos hb, if_pos hb]
    · rw [if_neg hb, if_neg hb]
      exact ih (offset + 100) _ _ _

/-- A runtime library page containing a null `track` field among its
items (the declared total counts it). -/
def libraryNullPageSource : Nat → Page (Option SpotifyTrack) :=
  fun offset => if offset = 0 then ⟨[some sampleTrack, none], 2⟩ else ⟨[], 2⟩

/-- C7 (amended): null entries are filtered out before counting toward
progress and before persistence only in the per-playlist fetch — its loop
behaves identically whether or not null items are present; the library
fetch performs no such filtering (its response type declares items
non-null), so at runtime a null entry is pushed unchanged, counts toward
the progress callback's accumulated count, and reaches the persistence
step. -/
theorem null_entries_filtered_per_collection {α : Type}
    (source : Nat → Page (Option α)) (fuel offset : Nat) (acc : List α)
    (prog : List (Nat × Nat)) (reqs : Nat) :
    paginationLoop (fun items => items.filterMap id) (stripNullItems source) 100
        fuel offset acc prog reqs
      = paginationLoop (fun items => items.filterMap id) source 100
          fuel offset acc prog reqs
    ∧ (libraryLoopJs libraryNullPageSource 5).map (fun r => r.progress) = some [(2, 2)]
    ∧ (libraryLoopJs libraryNullPageSource 5).map (·.tracks)
        = some [some sampleTrack, none]
    ∧ (([some sampleTrack, none] : List (Option SpotifyTrack)).filterMap id).length
        = 1 :=
  ⟨playlistTracksLoop_ignores_nulls source fuel offset acc prog reqs, rfl, rfl, rfl⟩

/-- C7 counterexample: on a library page whose two items include one null
track, the library fetch loop reports an accumulated count of 2 to the
progress callback — the null was counted, not filtered, contradicting the
claim that every collection fetch filters null entries before counting. -/
theorem null_entries_filtered_counterexample :
    (libraryLoopJs libraryNullPageSource 5).map (fun r => r.progress.map (·.1))
        = some [2]
    ∧ (([some sampleTrack, none] : List (Option SpotifyTrack)).filterMap id).length = 1
    ∧ (libraryLoopJs libraryNullPageSource 5).map (fun r => r.progress.map (·.1))
        ≠ some [1] := by
  refine ⟨rfl, rfl, ?_⟩
  decide

/-! ## Collection caches and the cache-or-network read operations -/

/-- Current cache schema version (`CACHE_VERSION = 3` in spotify-api.ts). -/
def CACHE_VERSION : Nat := 3

/-- Persisted library cache record (`CachedLibrary`). -/
structure CachedLibrary where
  version : Nat
  tracks : List CachedTrack
  timestamp : Int
  lastSynced : Option Int
deriving Repr, DecidableEq

/-- Persisted playlists-listing cache record (`CachedPlaylists`). -/
structure CachedPlaylists where
  version : Nat
  playlists : List SpotifyPlaylist
  timestamp : Int
  lastSynced : Option Int
deriving Repr, DecidableEq

/-- Persisted per-playlist cache record (`CachedPlaylist`). -/
structure CachedPlaylist where
  version : Nat
  playlistId : String
  tracks : List CachedTrack
  timestamp : Int
  lastSynced : Option Int
deriving Repr, DecidableEq

/-- Observable outcome of one `fetchLibraryTracks` call: the returned
tracks (`none` when the pagination loop was still running at the
iteration bound), whether the cache served the read, whether a stale
record was deleted, the stored cache after the call, whether a
persistence failure was surfaced as a warning, and the page-request and
progress-callback traces. -/
structure LibRead where
  result : Option (List SpotifyTrack)
  fromCache : Bool
  cacheDeleted : Bool
  cacheAfter : Option CachedLibrary
  warned : Bool
  requests : Nat
  progress : List (Nat × Nat)
deriving Repr, DecidableEq

/-- Outcome of one `fetchUserPlaylists` call. -/
structure PlaylistsRead where
  result : Option (List SpotifyPlaylist)
  fromCache : Bool
  cacheDeleted : Bool
  cacheAfter : Option CachedPlaylists
  warned : Bool
  requests : Nat
deriving Repr, DecidableEq

/-- Outcome of one `fetchPlaylistTracks` call. -/
structure PlaylistTracksRead where
  result : Option (List SpotifyTrack)
  fromCache : Bool
  cacheDeleted : Bool
  cacheAfter : Option CachedPlaylist
  warned : Bool
  requests : Nat
  progress : List (Nat × Nat)
deriving Repr, DecidableEq

/-- JavaScript `x || y` on an optional number (0 is falsy). -/
def jsNumOr (x : Option Int) (y : Int) : Int :=
  match x with
  | none => y
  | some v => if v = 0 then y else v

/-- 24 hours in milliseconds, the playlists auto-sync window. -/
def DAY_MS : Int := 24 * 60 * 60 * 1000

/-- Network path of `fetchLibraryTracks`: run the pagination loop, then
try to persist the minimized projection as a fresh version-3 record; a
persistence failure (`persistOk = false`) is caught, surfaced as a
warning, and the freshly fetched tracks are returned anyway.  `deleted`
and `remaining` record what the cache-check phase already did to the
store. -/
def libraryNetwork (source : Nat → Page SpotifyTrack) (now : Int) (persistOk : Bool)
    (fuel : Nat) (deleted : Bool) (remaining : Option CachedLibrary) : LibRead :=
  match libraryLoop source fuel with
  | none => ⟨none, false, deleted, remaining, false, fuel, []⟩
  | some res =>
    if persistOk then
      ⟨some res.tracks, false, deleted,
        some ⟨CACHE_VERSION, res.tracks.map toMinimalTrack, now, some now⟩,
        false, res.requests, res.progress⟩
    else
      ⟨some res.tracks, false, deleted, remaining, true, res.requests, res.progress⟩

/-- Embedding of `fetchLibraryTracks`: serve a version-matching cache as
one progress batch, delete a version-mismatched record and fall through
to the network, and go straight to the network on a cold cache or a
forced refresh. -/
def fetchLibraryTracksM (cache : Option CachedLibrary) (forceRefresh : Bool)
    (source : Nat → Page SpotifyTrack) (now : Int) (persistOk : Bool)
    (fuel : Nat) : LibRead :=
  if forceRefresh then libraryNetwork source now persistOk fuel false cache
  else
    match cache with
    | none => libraryNetwork source now persistOk fuel false none
    | some cd =>
      if cd.version ≠ CACHE_VERSION then
        libraryNetwork source now persistOk fuel true none
      else
        ⟨some (cd.tracks.map fromMinimalTrack), true, false, some cd, false, 0,
          [(cd.tracks.length, cd.tracks.length)]⟩

/-- Network path of `fetchUserPlaylists` (no minimization: playlists are
persisted as returned). -/
def playlistsNetwork (source : Nat → Page SpotifyPlaylist) (now : Int)
    (persistOk : Bool) (fuel : Nat) (deleted : Bool)
    (remaining : Option CachedPlaylists) : PlaylistsRead :=
  match playlistsLoop source fuel with
  | none => ⟨none, false, deleted, remaining, false, fuel⟩
  | some res =>
    if persistOk then
      ⟨some res.tracks, false, deleted,
        some ⟨CACHE_VERSION, res.tracks, now, some now⟩, false, res.requests⟩
    else
      ⟨some res.tracks, false, deleted, remaining, true, res.requests⟩

/-- Embedding of `fetchUserPlaylists`: version-matching cache newer than
24 hours is served; a version mismatch deletes the record and refetches;
a stale (but version-matching) cache falls through to the network without
deletion. -/
def fetchUserPlaylistsM (cache : Option CachedPlaylists) (forceRefresh : Bool)
    (source : Nat → Page SpotifyPlaylist) (now : Int) (persistOk : Bool)
    (fuel : Nat) : PlaylistsRead :=
  if forceRefresh then playlistsNetwork source now persistOk fuel false cache
  else
    match cache with
    | none => playlistsNetwork source now persistOk fuel false none
    | some cd =>
      if cd.version ≠ CACHE_VERSION then
        playlistsNetwork source now persistOk fuel true none
      else
        if now - jsNumOr cd.lastSynced cd.timestamp < DAY_MS then
          ⟨some cd.playlists, true, false, some cd, false, 0⟩
        else
          playlistsNetwork source now persistOk fuel false (some cd)

/-- Network path of `fetchPlaylistTracks`. -/
def playlistTracksNetwork (playlistId : String)
    (source : Nat → Page (Option SpotifyTrack)) (now : Int) (persistOk : Bool)
    (fuel : Nat) (deleted : Bool) (remaining : Option CachedPlaylist) :
    PlaylistTracksRead :=
  match playlistTracksLoop source fuel with
  | none => ⟨none, false, deleted, remaining, false, fuel, []⟩
  | some res =>
    if persistOk then
      ⟨some res.tracks, false, deleted,
        some ⟨CACHE_VERSION, playlistId, res.tracks.map toMinimalTrack, now, some now⟩,
        false, res.requests, res.progress⟩
    else
      ⟨some res.tracks, false, deleted, remaining, true, res.requests, res.progress⟩

/-- Embedding of `fetchPlaylistTracks`. -/
def fetchPlaylistTracksM (playlistId : String) (cache : Option CachedPlaylist)
    (forceRefresh : Bool) (source : Nat → Page (Option SpotifyTrack)) (now : Int)
    (persistOk : Bool) (fuel : Nat) : PlaylistTracksRead :=
  if forceRefresh then playlistTracksNetwork playlistId source now persistOk fuel false cache
  else
    match cache with
    | none => playlistTracksNetwork playlistId source now persistOk fuel false none
    | some cd =>
      if cd.version ≠ CACHE_VERSION then
        playlistTracksNetwork playlistId source now persistOk fuel true none
      else
        ⟨some (cd.tracks.map fromMinimalTrack), true, false, some cd, false, 0,
          [(cd.tracks.length, cd.tracks.length)]⟩

theorem libraryNetwork_deleted_flag (s : Nat → Page SpotifyTrack) (now : Int)
    (p : Bool) (fuel : Nat) (c : Option CachedLibrary) :
    libraryNetwork s now p fuel true c
      = { libraryNetwork s now p fuel false c with cacheDeleted := true } := by
  unfold libraryNetwork
  cases libraryLoop s fuel with
  | none => rfl
  | some res => cases p <;> rfl

theorem playlistsNetwork_deleted_flag (s : Nat → Page SpotifyPlaylist) (now : Int)
    (p : Bool) (fuel : Nat) (c : Option CachedPlaylists) :
    playlistsNetwork s now p fuel true c
      = { playlistsNetwork s now p fuel false c with cacheDeleted := true } := by
  unfold playlistsNetwork
  cases playlistsLoop s fuel with
  | none => rfl
  | some res => cases p <;> rfl

theorem playlistTracksNetwork_deleted_flag (pid : String)
    (s : Nat → Page (Option SpotifyTrack)) (now : Int) (p : Bool) (fuel : Nat)
    (c : Option CachedPlaylist) :
    playlistTracksNetwork pid s now p fuel true c
      = { playlistTracksNetwork pid s now p fuel false c with cacheDeleted := true } := by
  unfold playlistTracksNetwork
  cases playlistTracksLoop s fuel with
  | none => rfl
  | some res => cases p <;> rfl

theorem libraryNetwork_fromCache (s : Nat → Page SpotifyTrack) (now : Int)
    (p : Bool) (fuel : Nat) (d : Bool) (c : Option CachedLibrary) :
    (libraryNetwork s now p fuel d c).fromCache = false ∧
      (libraryNetwork s now p fuel d c).cacheDeleted = d := by
  unfold libraryNetwork
  cases libraryLoop s fuel with
  | none => exact ⟨rfl, rfl⟩
  | some res => cases p <;> exact ⟨rfl, rfl⟩

theorem playlistsNetwork_fromCache (s : Nat → Page SpotifyPlaylist) (now : Int)
    (p : Bool) (fuel : Nat) (d : Bool) (c : Option CachedPlaylists) :
    (playlistsNetwork s now p fuel d c).fromCache = false ∧
      (playlistsNetwork s now p fuel d c).cacheDeleted = d := by
  unfold playlistsNetwork
  cases playlistsLoop s fuel with
  | none => exact ⟨rfl, rfl⟩
  | some res => cases p <;> exact ⟨rfl, rfl⟩

theorem playlistTracksNetwork_fromCache (pid : String)
    (s : Nat → Page (Option SpotifyTrack)) (now : Int) (p : Bool) (fuel : Nat)
    (d : Bool) (c : Option CachedPlaylist) :
    (playlistTracksNetwork pid s now p fuel d c).fromCache = false ∧
      (playlistTracksNetwork pid s now p fuel d c).cacheDeleted = d := by
  unfold playlistTracksNetwork
  cases playlistTracksLoop s fuel with
  | none => exact ⟨rfl, rfl⟩
  | some res => cases p <;> exact ⟨rfl, rfl⟩

/-- C1: for each cached collection read with `forceRefresh = false`
(`fetchLibraryTracks`, `fetchUserPlaylists`, `fetchPlaylistTracks`), a
stored record whose `version` differs from `CACHE_VERSION = 3` is never
served: the read is not answered from the cache, the stale record is
deleted, and the operation is otherwise identical to a read with no cache
present (same full paginated network fetch, same returned records, same
persisted replacement), whatever the record's payload. -/
theorem version_mismatch_cold_cache
    (cdL : CachedLibrary) (sL : Nat → Page SpotifyTrack) (nowL : Int) (pL : Bool)
    (fuelL : Nat)
    (cdP : CachedPlaylists) (sP : Nat → Page SpotifyPlaylist) (nowP : Int) (pP : Bool)
    (fuelP : Nat)
    (cdT : CachedPlaylist) (pid : String) (sT : Nat → Page (Option SpotifyTrack))
    (nowT : Int) (pT : Bool) (fuelT : Nat)
    (hL : cdL.version ≠ CACHE_VERSION) (hP : cdP.version ≠ CACHE_VERSION)
    (hT : cdT.version ≠ CACHE_VERSION) :
    (fetchLibraryTracksM (some cdL) false sL nowL pL fuelL
        = { fetchLibraryTracksM none false sL nowL pL fuelL with cacheDeleted := true }
      ∧ (fetchLibraryTracksM (some cdL) false sL nowL pL fuelL).fromCache = false
      ∧ (fetchLibraryTracksM (some cdL) false sL nowL pL fuelL).cacheDeleted = true)
    ∧ (fetchUserPlaylistsM (some cdP) false sP nowP pP fuelP
        = { fetchUserPlaylistsM none false sP nowP pP fuelP with cacheDeleted := true }
      ∧ (fetchUserPlaylistsM (some cdP) false sP nowP pP fuelP).fromCache = false
      ∧ (fetchUserPlaylistsM (some cdP) false sP nowP pP fuelP).cacheDeleted = true)
    ∧ (fetchPlaylistTracksM pid (some cdT) false sT nowT pT fuelT
        = { fetchPlaylistTracksM pid none false sT nowT pT fuelT with
              cacheDeleted := true }
      ∧ (fetchPlaylistTracksM pid (some cdT) false sT nowT pT fuelT).fromCache = false
      ∧ (fetchPlaylistTracksM pid (some cdT) false sT nowT pT fuelT).cacheDeleted
          = true) := by
  have eL : fetchLibraryTracksM (some cdL) false sL nowL pL fuelL
      = libraryNetwork sL nowL pL fuelL true none := by
    simp [fetchLibraryTracksM, hL]
  have eL0 : fetchLibraryTracksM none false sL nowL pL fuelL
      = libraryNetwork sL nowL pL fuelL false none := by
    simp [fetchLibraryTracksM]
  have eP : fetchUserPlaylistsM (some cdP) false sP nowP pP fuelP
      = playlistsNetwork sP nowP pP fuelP true none := by
    simp [fetchUserPlaylistsM, hP]
  have eP0 : fetchUserPlaylistsM none false sP nowP pP fuelP
      = playlistsNetwork sP nowP pP fuelP false none := by
    simp [fetchUserPlaylistsM]
  have eT : fetchPlaylistTracksM pid (some cdT) false sT nowT pT fuelT
      = playlistTracksNetwork pid sT nowT pT fuelT true none := by
    simp [fetchPlaylistTracksM, hT]
  have eT0 : fetchPlaylistTracksM pid none false sT nowT pT fuelT
      = playlistTracksNetwork pid sT nowT pT fuelT false none := by
    simp [fetchPlaylistTracksM]
  refine ⟨⟨?_, ?_, ?_⟩, ⟨?_, ?_, ?_⟩, ⟨?_, ?_, ?_⟩⟩
  · rw [eL, eL0, libraryNetwork_deleted_flag]
  · rw [eL]; exact (libraryNetwork_fromCache _ _ _ _ _ _).1
  · rw [eL]; exact (libraryNetwork_fromCache _ _ _ _ _ _).2
  · rw [eP, eP0, playlistsNetwork_deleted_flag]
  · rw [eP]; exact (playlistsNetwork_fromCache _ _ _ _ _ _).1
  · rw [eP]; exact (playlistsNetwork_fromCache _ _ _ _ _ _).2
  · rw [eT, eT0, playlistTracksNetwork_deleted_flag]
  · rw [eT]; exact (playlistTracksNetwork_fromCache _ _ _ _ _ _ _).1
  · rw [eT]; exact (playlistTracksNetwork_fromCache _ _ _ _ _ _ _).2

/-- Stale sample caches carrying the pre-migration version tag 2. -/
def staleLibraryCache : CachedLibrary :=
  ⟨2, [toMinimalTrack sampleTrack], 5, some 5⟩

/-- Stale playlists cache with version 2. -/
def stalePlaylistsCache : CachedPlaylists :=
  ⟨2, [⟨"pl1", "mix", 3⟩], 5, some 5⟩

/-- Stale per-playlist cache with version 2. -/
def stalePlaylistCache : CachedPlaylist :=
  ⟨2, "pl1", [toMinimalTrack sampleTrack], 5, some 5⟩

/-- Witness instantiating the version-mismatch theorem on concrete
version-2 records against a one-track source. -/
theorem version_mismatch_cold_cache_witness :
    (fetchLibraryTracksM (some staleLibraryCache) false (mkSource [sampleTrack] 50) 9
          true 1
        = { fetchLibraryTracksM none false (mkSource [sampleTrack] 50) 9 true 1 with
              cacheDeleted := true }
      ∧ (fetchLibraryTracksM (some staleLibraryCache) false (mkSource [sampleTrack] 50)
          9 true 1).fromCache = false
      ∧ (fetchLibraryTracksM (some staleLibraryCache) false (mkSource [sampleTrack] 50)
          9 true 1).cacheDeleted = true)
    ∧ (fetchUserPlaylistsM (some stalePlaylistsCache) false
          (mkSource [⟨"pl1", "mix", 3⟩] 50) 9 true 1
        = { fetchUserPlaylistsM none false (mkSource [⟨"pl1", "mix", 3⟩] 50) 9 true 1
              with cacheDeleted := true }
      ∧ (fetchUserPlaylistsM (some stalePlaylistsCache) false
          (mkSource [⟨"pl1", "mix", 3⟩] 50) 9 true 1).fromCache = false
      ∧ (fetchUserPlaylistsM (some stalePlaylistsCache) false
          (mkSource [⟨"pl1", "mix", 3⟩] 50) 9 true 1).cacheDeleted = true)
    ∧ (fetchPlaylistTracksM "pl1" (some stalePlaylistCache) false
          (mkSource [some sampleTrack] 100) 9 true 1
        = { fetchPlaylistTracksM "pl1" none false (mkSource [some sampleTrack] 100) 9
              true 1 with cacheDeleted := true }
      ∧ (fetchPlaylistTracksM "pl1" (some stalePlaylistCache) false
          (mkSource [some sampleTrack] 100) 9 true 1).fromCache = false
      ∧ (fetchPlaylistTracksM "pl1" (some stalePlaylistCache) false
          (mkSource [some sampleTrack] 100) 9 true 1).cacheDeleted = true) :=
  version_mismatch_cold_cache staleLibraryCache (mkSource [sampleTrack] 50) 9 true 1
    stalePlaylistsCache (mkSource [⟨"pl1", "mix", 3⟩] 50) 9 true 1
    stalePlaylistCache "pl1" (mkSource [some sampleTrack] 100) 9 true 1
    (by decide) (by decide) (by decide)

/-- C8: for every collection fetch whose network pagination completes, a
failure while persisting the new cache is caught and surfaced only as a
warning: the operation still returns the freshly fetched record list
(with its full request and progress traces), reports no error, and simply
leaves the previously stored state in place. -/
theorem persist_failure_soft_warning
    (sL : Nat → Page SpotifyTrack) (nowL : Int) (fuelL : Nat) (dL : Bool)
    (cL : Option CachedLibrary) (resL : FetchResult SpotifyTrack)
    (sP : Nat → Page SpotifyPlaylist) (nowP : Int) (fuelP : Nat) (dP : Bool)
    (cP : Option CachedPlaylists) (resP : FetchResult SpotifyPlaylist)
    (pid : String) (sT : Nat → Page (Option SpotifyTrack)) (nowT : Int) (fuelT : Nat)
    (dT : Bool) (cT : Option CachedPlaylist) (resT : FetchResult SpotifyTrack)
    (hL : libraryLoop sL fuelL = some resL)
    (hP : playlistsLoop sP fuelP = some resP)
    (hT : playlistTracksLoop sT fuelT = some resT) :
    libraryNetwork sL nowL false fuelL dL cL
        = ⟨some resL.tracks, false, dL, cL, true, resL.requests, resL.progress⟩
    ∧ playlistsNetwork sP nowP false fuelP dP cP
        = ⟨some resP.tracks, false, dP, cP, true, resP.requests⟩
    ∧ playlistTracksNetwork pid sT nowT false fuelT dT cT
        = ⟨some resT.tracks, false, dT, cT, true, resT.requests, resT.progress⟩ := by
  refine ⟨?_, ?_, ?_⟩
  · unfold libraryNetwork
    rw [hL]
    rfl
  · unfold playlistsNetwork
    rw [hP]
    rfl
  · unfold playlistTracksNetwork
    rw [hT]
    rfl

/-- Witness instantiating the soft-warning theorem on empty collections
(each loop finishes after one request). -/
theorem persist_failure_soft_warning_witness :
    libraryNetwork (mkSource [] 50) 3 false 1 false none
        = ⟨some ([] : List SpotifyTrack), false, false, none, true, 1, [(0, 0)]⟩
    ∧ playlistsNetwork (mkSource [] 50) 3 false 1 false none
        = ⟨some ([] : List SpotifyPlaylist), false, false, none, true, 1⟩
    ∧ playlistTracksNetwork "pl9" (mkSource [] 100) 3 false 1 false none
        = ⟨some ([] : List SpotifyTrack), false, false, none, true, 1, [(0, 0)]⟩ :=
  persist_failure_soft_warning (mkSource [] 50) 3 1 false none ⟨[], 1, [(0, 0)]⟩
    (mkSource [] 50) 3 1 false none ⟨[], 1, [(0, 0)]⟩
    "pl9" (mkSource [] 100) 3 1 false none ⟨[], 1, [(0, 0)]⟩
    rfl rfl rfl

/-! ## Resync with diff (resyncLibrary / resyncPlaylistTracks) -/

/-- Insertion into a JavaScript `Set` of strings, modelled as an
insertion-ordered duplicate-free list. -/
def setInsert (s : List String) (x : String) : List String :=
  if x ∈ s then s else s ++ [x]

/-- `new Set(list)`: fold the list into the empty set. -/
def setOfList (l : List String) : List String :=
  l.foldl setInsert []

theorem mem_setInsert (s : List String) (x y : String) :
    y ∈ setInsert s x ↔ y ∈ s ∨ y = x := by
  unfold setInsert
  split
  · rename_i h
    constructor
    · exact Or.inl
    · rintro (hy | rfl)
      · exact hy
      · exact h
  · simp

theorem mem_foldl_setInsert (l : List String) :
    ∀ (s : List String) (y : String), y ∈ l.foldl setInsert s ↔ y ∈ s ∨ y ∈ l := by
  induction l with
  | nil => intro s y; simp
  | cons a t ih =>
    intro s y
    rw [List.foldl_cons, ih, mem_setInsert]
    simp [or_assoc]

/-- Membership in the modelled `Set` agrees with membership in the
originating list (`set.has(x)` of JavaScript). -/
theorem mem_setOfList (l : List String) (y : String) :
    y ∈ setOfList l ↔ y ∈ l := by
  rw [setOfList, mem_foldl_setInsert]
  simp

/-- Result of a resync of the library: the diff lists, the full fresh
record set, and the cache left behind by the forced refetch. -/
structure ResyncLibraryOut where
  added : List SpotifyTrack
  removed : List String
  tracks : List SpotifyTrack
  cacheAfter : Option CachedLibrary
deriving Repr, DecidableEq

/-- Result of a resync of one playlist's tracks. -/
structure ResyncPlaylistOut where
  added : List SpotifyTrack
  removed : List String
  tracks : List SpotifyTrack
  cacheAfter : Option CachedPlaylist
deriving Repr, DecidableEq

/-- Embedding of `resyncLibrary`: collect the previously cached ids into
a set, force a full refetch, and diff — `added` are fresh records whose
id was unknown, `removed` are known ids absent from the fresh set.
Returns `none` when the forced fetch's pagination did not finish within
the iteration bound. -/
def resyncLibraryM (cache : Option CachedLibrary) (source : Nat → Page SpotifyTrack)
    (now : Int) (persistOk : Bool) (fuel : Nat) : Option ResyncLibraryOut :=
  let existingIds := setOfList ((cache.map (fun cd => cd.tracks.map (·.id))).getD [])
  let fetchRes := fetchLibraryTracksM cache true source now persistOk fuel
  match fetchRes.result with
  | none => none
  | some freshTracks =>
    let freshIds := setOfList (freshTracks.map (·.id))
    some ⟨freshTracks.filter (fun t => decide (t.id ∉ existingIds)),
          existingIds.filter (fun i => decide (i ∉ freshIds)),
          freshTracks, fetchRes.cacheAfter⟩

/-- Embedding of `resyncPlaylistTracks`. -/
def resyncPlaylistTracksM (playlistId : String) (cache : Option CachedPlaylist)
    (source : Nat → Page (Option SpotifyTrack)) (now : Int) (persistOk : Bool)
    (fuel : Nat) : Option ResyncPlaylistOut :=
  let existingIds := setOfList ((cache.map (fun cd => cd.tracks.map (·.id))).getD [])
  let fetchRes := fetchPlaylistTracksM playlistId cache true source now persistOk fuel
  match fetchRes.result with
  | none => none
  | some freshTracks =>
    let freshIds := setOfList (freshTracks.map (·.id))
    some ⟨freshTracks.filter (fun t => decide (t.id ∉ existingIds)),
          existingIds.filter (fun i => decide (i ∉ freshIds)),
          freshTracks, fetchRes.cacheAfter⟩

theorem fetchLibraryTracksM_force (cache : Option CachedLibrary)
    (s : Nat → Page SpotifyTrack) (now : Int) (p : Bool) (fuel : Nat) :
    fetchLibraryTracksM cache true s now p fuel
      = libraryNetwork s now p fuel false cache := by
  simp [fetchLibraryTracksM]

theorem fetchPlaylistTracksM_force (pid : String) (cache : Option CachedPlaylist)
    (s : Nat → Page (Option SpotifyTrack)) (now : Int) (p : Bool) (fuel : Nat) :
    fetchPlaylistTracksM pid cache true s now p fuel
      = playlistTracksNetwork pid s now p fuel false cache := by
  simp [fetchPlaylistTracksM]

/-- Closed form of a library resync whose forced fetch finishes. -/
theorem resyncLibraryM_eq (cache : Option CachedLibrary)
    (s : Nat → Page SpotifyTrack) (now : Int) (p : Bool) (fuel : Nat)
    (res : FetchResult SpotifyTrack) (h : libraryLoop s fuel = some res) :
    resyncLibraryM cache s now p fuel
      = some ⟨res.tracks.filter (fun t => decide
            (t.id ∉ setOfList ((cache.map (fun cd => cd.tracks.map (·.id))).getD []))),
          (setOfList ((cache.map (fun cd => cd.tracks.map (·.id))).getD [])).filter
            (fun i => decide (i ∉ setOfList (res.tracks.map (·.id)))),
          res.tracks,
          (libraryNetwork s now p fuel false cache).cacheAfter⟩ := by
  unfold resyncLibraryM
  rw [fetchLibraryTracksM_force]
  unfold libraryNetwork
  rw [h]
  cases p <;> rfl

/-- A library resync returns `none` exactly when the loop ran out. -/
theorem resyncLibraryM_none (cache : Option CachedLibrary)
    (s : Nat → Page SpotifyTrack) (now : Int) (p : Bool) (fuel : Nat)
    (h : libraryLoop s fuel = none) :
    resyncLibraryM cache s now p fuel = none := by
  unfold resyncLibraryM
  rw [fetchLibraryTracksM_force]
  unfold libraryNetwork
  rw [h]

/-- Closed form of a playlist resync whose forced fetch finishes. -/
theorem resyncPlaylistTracksM_eq (pid : String) (cache : Option CachedPlaylist)
    (s : Nat → Page (Option SpotifyTrack)) (now : Int) (p : Bool) (fuel : Nat)
    (res : FetchResult SpotifyTrack) (h : playlistTracksLoop s fuel = some res) :
    resyncPlaylistTracksM pid cache s now p fuel
      = some ⟨res.tracks.filter (fun t => decide
            (t.id ∉ setOfList ((cache.map (fun cd => cd.tracks.map (·.id))).getD []))),
          (setOfList ((cache.map (fun cd => cd.tracks.map (·.id))).getD [])).filter
            (fun i => decide (i ∉ setOfList (res.tracks.map (·.id)))),
          res.tracks,
          (playlistTracksNetwork pid s now p fuel false cache).cacheAfter⟩ := by
  unfold resyncPlaylistTracksM
  rw [fetchPlaylistTracksM_force]
  unfold playlistTracksNetwork
  rw [h]
  cases p <;> rfl

/-- A playlist resync returns `none` exactly when the loop ran out. -/
theorem resyncPlaylistTracksM_none (pid : String) (cache : Option CachedPlaylist)
    (s : Nat → Page (Option SpotifyTrack)) (now : Int) (p : Bool) (fuel : Nat)
    (h : playlistTracksLoop s fuel = none) :
    resyncPlaylistTracksM pid cache s now p fuel = none := by
  unfold resyncPlaylistTracksM
  rw [fetchPlaylistTracksM_force]
  unfold playlistTracksNetwork
  rw [h]

theorem map_toMinimalTrack_id (l : List SpotifyTrack) :
    (l.map toMinimalTrack).map (·.id) = l.map (·.id) := by
  rw [List.map_map]
  rfl

theorem diff_added_ids_mem (fresh : List SpotifyTrack) (prev : List String)
    (x : String) :
    x ∈ (fresh.filter (fun t => decide (t.id ∉ setOfList prev))).map (·.id)
      ↔ x ∈ fresh.map (·.id) ∧ x ∉ prev := by
  simp only [List.mem_map, List.mem_filter, decide_eq_true_eq, mem_setOfList]
  constructor
  · rintro ⟨t, ⟨ht, hnp⟩, rfl⟩
    exact ⟨⟨t, ht, rfl⟩, hnp⟩
  · rintro ⟨⟨t, ht, rfl⟩, hnp⟩
    exact ⟨t, ⟨ht, hnp⟩, rfl⟩

theorem diff_added_mem (fresh : List SpotifyTrack) (prev : List String)
    (t : SpotifyTrack) :
    t ∈ fresh.filter (fun t => decide (t.id ∉ setOfList prev))
      ↔ t ∈ fresh ∧ t.id ∉ prev := by
  simp [List.mem_filter, mem_setOfList]

theorem diff_removed_mem (fresh : List SpotifyTrack) (prev : List String)
    (x : String) :
    x ∈ (setOfList prev).filter (fun i => decide (i ∉ setOfList (fresh.map (·.id))))
      ↔ x ∈ prev ∧ x ∉ fresh.map (·.id) := by
  simp [List.mem_filter, mem_setOfList]

theorem diff_self_added_nil (l : List SpotifyTrack) :
    l.filter (fun t => decide (t.id ∉ setOfList (l.map (·.id)))) = [] := by
  rw [List.filter_eq_nil_iff]
  intro t ht
  simp [mem_setOfList]
  exact ⟨t, ht, rfl⟩

theorem diff_self_removed_nil (l : List SpotifyTrack) :
    (setOfList (l.map (·.id))).filter
      (fun i => decide (i ∉ setOfList (l.map (·.id)))) = [] := by
  rw [List.filter_eq_nil_iff]
  intro x hx
  simp [mem_setOfList] at hx ⊢
  exact hx

theorem libraryNetwork_cacheAfter_true (s : Nat → Page SpotifyTrack) (now : Int)
    (fuel : Nat) (d : Bool) (c : Option CachedLibrary) (res : FetchResult SpotifyTrack)
    (h : libraryLoop s fuel = some res) :
    (libraryNetwork s now true fuel d c).cacheAfter
      = some ⟨CACHE_VERSION, res.tracks.map toMinimalTrack, now, some now⟩ := by
  unfold libraryNetwork
  rw [h]
  rfl

theorem playlistTracksNetwork_cacheAfter_true (pid : String)
    (s : Nat → Page (Option SpotifyTrack)) (now : Int) (fuel : Nat) (d : Bool)
    (c : Option CachedPlaylist) (res : FetchResult SpotifyTrack)
    (h : playlistTracksLoop s fuel = some res) :
    (playlistTracksNetwork pid s now true fuel d c).cacheAfter
      = some ⟨CACHE_VERSION, pid, res.tracks.map toMinimalTrack, now, some now⟩ := by
  unfold playlistTracksNetwork
  rw [h]
  rfl

/-- Diff correctness and resync idempotence for the library collection:
memberships of `added` and `removed` match the set differences of fresh
versus previously cached ids, the two are disjoint, and a second resync
straight after a persisting one (against an unchanged remote) reports
nothing added and nothing removed. -/
theorem resyncLibrary_diff_spec (cache : Option CachedLibrary)
    (s : Nat → Page SpotifyTrack) (now : Int) (p : Bool) (fuel : Nat)
    (out out2 out3 : ResyncLibraryOut) (x : String) (t : SpotifyTrack)
    (h : resyncLibraryM cache s now p fuel = some out)
    (h2 : resyncLibraryM cache s now true fuel = some out2)
    (h3 : resyncLibraryM out2.cacheAfter s now true fuel = some out3) :
    (x ∈ out.added.map (·.id) ↔ x ∈ out.tracks.map (·.id)
        ∧ x ∉ (cache.map (fun cd => cd.tracks.map (·.id))).getD [])
    ∧ (t ∈ out.added ↔ t ∈ out.tracks
        ∧ t.id ∉ (cache.map (fun cd => cd.tracks.map (·.id))).getD [])
    ∧ (x ∈ out.removed ↔ x ∈ (cache.map (fun cd => cd.tracks.map (·.id))).getD []
        ∧ x ∉ out.tracks.map (·.id))
    ∧ ¬(x ∈ out.added.map (·.id) ∧ x ∈ out.removed)
    ∧ out3.added = [] ∧ out3.removed = [] := by
  cases hloop : libraryLoop s fuel with
  | none =>
    rw [resyncLibraryM_none cache s now p fuel hloop] at h
    exact absurd h (by simp)
  | some res =>
    rw [resyncLibraryM_eq cache s now p fuel res hloop] at h
    rw [resyncLibraryM_eq cache s now true fuel res hloop] at h2
    injection h with h
    injection h2 with h2
    subst h
    subst h2
    dsimp only at h3
    rw [libraryNetwork_cacheAfter_true s now fuel false cache res hloop] at h3
    rw [resyncLibraryM_eq _ s now true fuel res hloop] at h3
    injection h3 with h3
    subst h3
    have hprev3 : (((some (⟨CACHE_VERSION, res.tracks.map toMinimalTrack, now,
        some now⟩ : CachedLibrary)).map (fun cd => cd.tracks.map (·.id))).getD [])
          = res.tracks.map (·.id) :=
      map_toMinimalTrack_id res.tracks
    refine ⟨diff_added_ids_mem _ _ _, diff_added_mem _ _ _, diff_removed_mem _ _ _,
      ?_, ?_, ?_⟩
    · rintro ⟨ha, hr⟩
      have h1 := (diff_added_ids_mem res.tracks _ x).mp ha
      have h2 := (diff_removed_mem res.tracks _ x).mp hr
      exact h1.2 h2.1
    · dsimp only
      rw [hprev3]
      exact diff_self_added_nil res.tracks
    · dsimp only
      rw [hprev3]
      exact diff_self_removed_nil res.tracks

/-- Diff correctness and resync idempotence for a playlist's tracks. -/
theorem resyncPlaylist_diff_spec (pid : String) (cache : Option CachedPlaylist)
    (s : Nat → Page (Option SpotifyTrack)) (now : Int) (p : Bool) (fuel : Nat)
    (out out2 out3 : ResyncPlaylistOut) (x : String) (t : SpotifyTrack)
    (h : resyncPlaylistTracksM pid cache s now p fuel = some out)
    (h2 : resyncPlaylistTracksM pid cache s now true fuel = some out2)
    (h3 : resyncPlaylistTracksM pid out2.cacheAfter s now true fuel = some out3) :
    (x ∈ out.added.map (·.id) ↔ x ∈ out.tracks.map (·.id)
        ∧ x ∉ (cache.map (fun cd => cd.tracks.map (·.id))).getD [])
    ∧ (t ∈ out.added ↔ t ∈ out.tracks
        ∧ t.id ∉ (cache.map (fun cd => cd.tracks.map (·.id))).getD [])
    ∧ (x ∈ out.removed ↔ x ∈ (cache.map (fun cd => cd.tracks.map (·.id))).getD []
        ∧ x ∉ out.tracks.map (·.id))
    ∧ ¬(x ∈ out.added.map (·.id) ∧ x ∈ out.removed)
    ∧ out3.added = [] ∧ out3.removed = [] := by
  cases hloop : playlistTracksLoop s fuel with
  | none =>
    rw [resyncPlaylistTracksM_none pid cache s now p fuel hloop] at h
    exact absurd h (by simp)
  | some res =>
    rw [resyncPlaylistTracksM_eq pid cache s now p fuel res hloop] at h
    rw [resyncPlaylistTracksM_eq pid cache s now true fuel res hloop] at h2
    injection h with h
    injection h2 with h2
    subst h
    subst h2
    dsimp only at h3
    rw [playlistTracksNetwork_cacheAfter_true pid s now fuel false cache res hloop] at h3
    rw [resyncPlaylistTracksM_eq pid _ s now true fuel res hloop] at h3
    injection h3 with h3
    subst h3
    have hprev3 : (((some (⟨CACHE_VERSION, pid, res.tracks.map toMinimalTrack, now,
        some now⟩ : CachedPlaylist)).map (fun cd => cd.tracks.map (·.id))).getD [])
          = res.tracks.map (·.id) :=
      map_toMinimalTrack_id res.tracks
    refine ⟨diff_added_ids_mem _ _ _, diff_added_mem _ _ _, diff_removed_mem _ _ _,
      ?_, ?_, ?_⟩
    · rintro ⟨ha, hr⟩
      have h1 := (diff_added_ids_mem res.tracks _ x).mp ha
      have h2 := (diff_removed_mem res.tracks _ x).mp hr
      exact h1.2 h2.1
    · dsimp only
      rw [hprev3]
      exact diff_self_added_nil res.tracks
    · dsimp only
      rw [hprev3]
      exact diff_self_removed_nil res.tracks

/-- C6: for both resync operations (`resyncLibrary`,
`resyncPlaylistTracks`), with `A` the previously cached id set and `B`
the fresh fetch's id set, the returned `added` list holds exactly the
records with ids in `B \ A`, `removed` holds exactly the ids in `A \ B`,
`added` and `removed` are disjoint, the full fresh record set is
returned, and a second resync against an unchanged remote right after a
persisting resync reports empty `added` and `removed`. -/
theorem resync_diff_correct
    (cacheL : Option CachedLibrary) (sL : Nat → Page SpotifyTrack) (nowL : Int)
    (pL : Bool) (fuelL : Nat) (outL outL2 outL3 : ResyncLibraryOut)
    (x : String) (t : SpotifyTrack)
    (pid : String) (cacheT : Option CachedPlaylist)
    (sT : Nat → Page (Option SpotifyTrack)) (nowT : Int) (pT : Bool) (fuelT : Nat)
    (outT outT2 outT3 : ResyncPlaylistOut) (y : String) (u : SpotifyTrack)
    (hL : resyncLibraryM cacheL sL nowL pL fuelL = some outL)
    (hL2 : resyncLibraryM cacheL sL nowL true fuelL = some outL2)
    (hL3 : resyncLibraryM outL2.cacheAfter sL nowL true fuelL = some outL3)
    (hT : resyncPlaylistTracksM pid cacheT sT nowT pT fuelT = some outT)
    (hT2 : resyncPlaylistTracksM pid cacheT sT nowT true fuelT = some outT2)
    (hT3 : resyncPlaylistTracksM pid outT2.cacheAfter sT nowT true fuelT
      = some outT3) :
    ((x ∈ outL.added.map (·.id) ↔ x ∈ outL.tracks.map (·.id)
        ∧ x ∉ (cacheL.map (fun cd => cd.tracks.map (·.id))).getD [])
    ∧ (t ∈ outL.added ↔ t ∈ outL.tracks
        ∧ t.id ∉ (cacheL.map (fun cd => cd.tracks.map (·.id))).getD [])
    ∧ (x ∈ outL.removed ↔ x ∈ (cacheL.map (fun cd => cd.tracks.map (·.id))).getD []
        ∧ x ∉ outL.tracks.map (·.id))
    ∧ ¬(x ∈ outL.added.map (·.id) ∧ x ∈ outL.removed)
    ∧ outL3.added = [] ∧ outL3.removed = [])
    ∧ ((y ∈ outT.added.map (·.id) ↔ y ∈ outT.tracks.map (·.id)
        ∧ y ∉ (cacheT.map (fun cd => cd.tracks.map (·.id))).getD [])
    ∧ (u ∈ outT.added ↔ u ∈ outT.tracks
        ∧ u.id ∉ (cacheT.map (fun cd => cd.tracks.map (·.id))).getD [])
    ∧ (y ∈ outT.removed ↔ y ∈ (cacheT.map (fun cd => cd.tracks.map (·.id))).getD []
        ∧ y ∉ outT.tracks.map (·.id))
    ∧ ¬(y ∈ outT.added.map (·.id) ∧ y ∈ outT.removed)
    ∧ outT3.added = [] ∧ outT3.removed = []) :=
  ⟨resyncLibrary_diff_spec cacheL sL nowL pL fuelL outL outL2 outL3 x t hL hL2 hL3,
   resyncPlaylist_diff_spec pid cacheT sT nowT pT fuelT outT outT2 outT3 y u
     hT hT2 hT3⟩

/-- Resync outcome of a first library resync over a cold cache and a
one-track remote. -/
def libResyncOut1 : ResyncLibraryOut :=
  ⟨[sampleTrack], [], [sampleTrack],
    some ⟨CACHE_VERSION, [toMinimalTrack sampleTrack], 0, some 0⟩⟩

/-- Resync outcome of the second library resync (nothing changed). -/
def libResyncOut2 : ResyncLibraryOut :=
  ⟨[], [], [sampleTrack],
    some ⟨CACHE_VERSION, [toMinimalTrack sampleTrack], 0, some 0⟩⟩

/-- Resync outcome of a first playlist resync over a cold cache. -/
def plResyncOut1 : ResyncPlaylistOut :=
  ⟨[sampleTrack], [], [sampleTrack],
    some ⟨CACHE_VERSION, "pl1", [toMinimalTrack sampleTrack], 0, some 0⟩⟩

/-- Resync outcome of the second playlist resync (nothing changed). -/
def plResyncOut2 : ResyncPlaylistOut :=
  ⟨[], [], [sampleTrack],
    some ⟨CACHE_VERSION, "pl1", [toMinimalTrack sampleTrack], 0, some 0⟩⟩

/-- Witness instantiating the resync diff theorem on a cold cache and a
one-track remote, with both resync runs computed concretely. -/
theorem resync_diff_correct_witness :
    (("s1" ∈ libResyncOut1.added.map (·.id)
        ↔ "s1" ∈ libResyncOut1.tracks.map (·.id)
        ∧ "s1" ∉ ((none : Option CachedLibrary).map
            (fun cd => cd.tracks.map (·.id))).getD [])
    ∧ (sampleTrack ∈ libResyncOut1.added ↔ sampleTrack ∈ libResyncOut1.tracks
        ∧ sampleTrack.id ∉ ((none : Option CachedLibrary).map
            (fun cd => cd.tracks.map (·.id))).getD [])
    ∧ ("s1" ∈ libResyncOut1.removed
        ↔ "s1" ∈ ((none : Option CachedLibrary).map
            (fun cd => cd.tracks.map (·.id))).getD []
        ∧ "s1" ∉ libResyncOut1.tracks.map (·.id))
    ∧ ¬("s1" ∈ libResyncOut1.added.map (·.id) ∧ "s1" ∈ libResyncOut1.removed)
    ∧ libResyncOut2.added = [] ∧ libResyncOut2.removed = [])
    ∧ (("s1" ∈ plResyncOut1.added.map (·.id)
        ↔ "s1" ∈ plResyncOut1.tracks.map (·.id)
        ∧ "s1" ∉ ((none : Option CachedPlaylist).map
            (fun cd => cd.tracks.map (·.id))).getD [])
    ∧ (sampleTrack ∈ plResyncOut1.added ↔ sampleTrack ∈ plResyncOut1.tracks
        ∧ sampleTrack.id ∉ ((none : Option CachedPlaylist).map
            (fun cd => cd.tracks.map (·.id))).getD [])
    ∧ ("s1" ∈ plResyncOut1.removed
        ↔ "s1" ∈ ((none : Option CachedPlaylist).map
            (fun cd => cd.tracks.map (·.id))).getD []
        ∧ "s1" ∉ plResyncOut1.tracks.map (·.id))
    ∧ ¬("s1" ∈ plResyncOut1.added.map (·.id) ∧ "s1" ∈ plResyncOut1.removed)
    ∧ plResyncOut2.added = [] ∧ plResyncOut2.removed = []) :=
  resync_diff_correct none (mkSource [sampleTrack] 50) 0 true 1
    libResyncOut1 libResyncOut1 libResyncOut2 "s1" sampleTrack
    "pl1" none (mkSource [some sampleTrack] 100) 0 true 1
    plResyncOut1 plResyncOut1 plResyncOut2 "s1" sampleTrack
    rfl rfl rfl rfl rfl rfl

/-! ## Token lifecycle (spotify-auth.ts getStoredTokens, spotify-api.ts
getAccessToken) -/

/-- Stored OAuth credential (`AuthTokens`), times in epoch ms. -/
structure AuthTokens where
  access_token : String
  refresh_token : String
  expires_at : Int
deriving Repr, DecidableEq

/-- The 5-minute early-refresh window, in milliseconds. -/
def REFRESH_WINDOW_MS : Int := 5 * 60 * 1000

/-- Embedding of `getStoredTokens`: an absent record stays absent, and a
record whose expiry has passed (`Date.now() >= expires_at`) is reported
as absent. -/
def getStoredTokens (now : Int) (stored : Option AuthTokens) : Option AuthTokens :=
  match stored with
  | none => none
  | some t => if t.expires_at ≤ now then none else some t

/-- The refresh trigger of `getAccessToken`:
`Date.now() >= tokens.expires_at - 5 * 60 * 1000`. -/
def needsRefresh (now : Int) (t : AuthTokens) : Bool :=
  t.expires_at - REFRESH_WINDOW_MS ≤ now

/-- Distinct failures of the token path: no usable stored credential
versus a failed refresh request. -/
inductive AuthFailure where
  | unauthenticated
  | refreshFailed
deriving Repr, DecidableEq

/-- Observable outcome of one `getAccessToken` call: the access token or
the failure, whether the local auth and cache keys were cleared (with a
redirect to login), whether a refresh request was dispatched, and the
stored credential afterwards. -/
structure AuthOutcome where
  result : Except AuthFailure String
  clearedLocalState : Bool
  refreshAttempted : Bool
  storedAfter : Option AuthTokens
deriving Repr

/-- Embedding of `getAccessToken`: a missing-or-expired credential clears
local state and fails without touching the refresh token; an
expiring-soon credential dispatches a refresh whose network outcome is
`refreshResult` (`refreshAccessToken` stores the new pair on success, and
a failure clears local state); otherwise the stored access token is
returned as is. -/
def getAccessTokenM (now : Int) (stored : Option AuthTokens)
    (refreshResult : Except Unit AuthTokens) : AuthOutcome :=
  match getStoredTokens now stored with
  | none => ⟨.error .unauthenticated, true, false, none⟩
  | some tokens =>
    if needsRefresh now tokens then
      match refreshResult with
      | .ok fresh => ⟨.ok fresh.access_token, false, true, some fresh⟩
      | .error _ => ⟨.error .refreshFailed, true, true, none⟩
    else ⟨.ok tokens.access_token, false, false, stored⟩

/-- One caller's synchronous prefix of `getAccessToken` against the
module state `stored`: reads the stored credential and, when it is
expiring-soon, dispatches one refresh request before suspending at the
network call.  Returns the number of refresh requests dispatched. -/
def refreshRequestsOf (now : Int) (stored : Option AuthTokens) : Nat :=
  match getStoredTokens now stored with
  | none => 0
  | some tokens => if needsRefresh now tokens then 1 else 0

/-- N concurrent `getAccessToken` calls under the schedule in which every
caller runs its synchronous prefix before any refresh response is
delivered — a legal event-loop interleaving, since `refreshAccessToken`
suspends at its network call and the module keeps no in-flight-refresh
state, so no caller's write can precede another caller's read.  Every
caller therefore reads the same stored credential; the total refresh
requests dispatched are accumulated. -/
def concurrentRefreshDispatches (n : Nat) (now : Int)
    (stored : Option AuthTokens) : Nat :=
  (List.range n).foldl (fun acc _ => acc + refreshRequestsOf now stored) 0

theorem foldl_const_add (c : Nat) (l : List Nat) :
    ∀ a : Nat, l.foldl (fun acc _ => acc + c) a = a + l.length * c := by
  induction l with
  | nil => intro a; simp
  | cons b t ih =>
    intro a
    rw [List.foldl_cons, ih]
    simp [Nat.succ_mul]
    omega

/-- C3 (amended): when the stored credential is expiring-soon but not yet
expired, N concurrent `getAccessToken` calls dispatch N refresh requests
— one per caller — under the schedule where all callers start before any
refresh response arrives: the module keeps no in-flight-refresh state, so
concurrent refreshes are not collapsed. -/
theorem concurrent_refresh_no_dedup (n : Nat) (now : Int) (t : AuthTokens)
    (hexp : now < t.expires_at)
    (hsoon : t.expires_at - REFRESH_WINDOW_MS ≤ now) :
    concurrentRefreshDispatches n now (some t) = n := by
  unfold concurrentRefreshDispatches
  have hone : refreshRequestsOf now (some t) = 1 := by
    simp only [refreshRequestsOf, getStoredTokens, needsRefresh]
    rw [if_neg (by omega : ¬ t.expires_at ≤ now)]
    simp [hsoon]
  rw [hone, foldl_const_add]
  simp

/-- An expiring-soon credential: expires at t = 100000 ms, checked at
t = 0, well inside the 300000 ms refresh window. -/
def expiringSoonTokens : AuthTokens := ⟨"acc", "ref", 100000⟩

/-- C3 counterexample: two concurrent calls on the expiring-soon
credential dispatch two refresh requests, not the single collapsed
request the claim requires. -/
theorem concurrent_refresh_no_dedup_counterexample :
    concurrentRefreshDispatches 2 0 (some expiringSoonTokens) = 2
    ∧ concurrentRefreshDispatches 2 0 (some expiringSoonTokens) ≠ 1 := by
  constructor <;> decide

/-- Witness instantiating the no-dedup theorem at three concurrent
callers on the expiring-soon credential. -/
theorem concurrent_refresh_no_dedup_witness :
    concurrentRefreshDispatches 3 0 (some expiringSoonTokens) = 3 :=
  concurrent_refresh_no_dedup 3 0 expiringSoonTokens (by decide) (by decide)

/-- C10: a stored credential at or past its expiry is reported absent by
`getStoredTokens`; consequently `getAccessToken` treats it as
unauthenticated — clearing the locally stored auth and cache state and
failing — and never dispatches a refresh with the stored refresh token;
and a refresh is dispatched exactly when a credential is stored, not yet
expired, and within the 5-minute window before its expiry. -/
theorem expired_credential_unauthenticated (now : Int) (stored : Option AuthTokens)
    (t : AuthTokens) (refreshResult : Except Unit AuthTokens) :
    (stored = some t → t.expires_at ≤ now → getStoredTokens now stored = none)
    ∧ (stored = some t → t.expires_at ≤ now →
        getAccessTokenM now stored refreshResult
          = ⟨.error .unauthenticated, true, false, none⟩)
    ∧ (stored = some t →
        ((getAccessTokenM now stored refreshResult).refreshAttempted = true
          ↔ (t.expires_at - REFRESH_WINDOW_MS ≤ now ∧ now < t.expires_at)))
    ∧ (stored = none →
        (getAccessTokenM now stored refreshResult).refreshAttempted = false) := by
  refine ⟨?_, ?_, ?_, ?_⟩
  · rintro rfl hle
    simp only [getStoredTokens]
    rw [if_pos hle]
  · rintro rfl hle
    simp only [getAccessTokenM, getStoredTokens]
    rw [if_pos hle]
  · rintro rfl
    simp only [getAccessTokenM, getStoredTokens, needsRefresh]
    by_cases hle : t.expires_at ≤ now
    · rw [if_pos hle]
      simp
      omega
    · rw [if_neg hle]
      dsimp only
      by_cases hsoon : t.expires_at - REFRESH_WINDOW_MS ≤ now
      · rw [if_pos (decide_eq_true hsoon)]
        cases refreshResult <;> simp <;> omega
      · rw [if_neg (by simp [hsoon])]
        simp
        omega
  · rintro rfl
    rfl

/-- Witness instantiating the expired-credential theorem at a credential
that expired at t = 50 checked at t = 60. -/
theorem expired_credential_unauthenticated_witness :
    ((some (⟨"a", "r", 50⟩ : AuthTokens)) = some (⟨"a", "r", 50⟩ : AuthTokens) →
        (50 : Int) ≤ 60 → getStoredTokens 60 (some ⟨"a", "r", 50⟩) = none)
    ∧ ((some (⟨"a", "r", 50⟩ : AuthTokens)) = some (⟨"a", "r", 50⟩ : AuthTokens) →
        (50 : Int) ≤ 60 →
        getAccessTokenM 60 (some ⟨"a", "r", 50⟩) (.error ())
          = ⟨.error .unauthenticated, true, false, none⟩)
    ∧ ((some (⟨"a", "r", 50⟩ : AuthTokens)) = some (⟨"a", "r", 50⟩ : AuthTokens) →
        ((getAccessTokenM 60 (some ⟨"a", "r", 50⟩) (.error ())).refreshAttempted = true
          ↔ ((50 : Int) - REFRESH_WINDOW_MS ≤ 60 ∧ (60 : Int) < 50)))
    ∧ ((some (⟨"a", "r", 50⟩ : AuthTokens)) = (none : Option AuthTokens) →
        (getAccessTokenM 60 (some ⟨"a", "r", 50⟩) (.error ())).refreshAttempted
          = false) :=
  expired_credential_unauthenticated 60 (some ⟨"a", "r", 50⟩) ⟨"a", "r", 50⟩
    (.error ())

/-! ## Retry with exponential backoff (retryWithBackoff) -/

/-- Outcome of one attempt of the wrapped request: resolution, or
rejection with the error's `status` field (0 when absent). -/
inductive AttemptOutcome where
  | ok
  | fail (status : Nat)
deriving Repr, DecidableEq

/-- The retryable-error test: `status === 429 || status >= 500`. -/
def isRetryable (status : Nat) : Bool :=
  status == 429 || decide (500 ≤ status)

/-- Whether an attempt outcome is a retryable failure. -/
def attemptRetryable : AttemptOutcome → Bool
  | .ok => false
  | .fail status => isRetryable status

/-- Observable trace of one `retryWithBackoff` call: whether it resolved,
how many attempts ran, the backoff delays slept between attempts (in ms,
rational because of the fractional jitter), and the status thrown. -/
structure RetryTrace where
  ok : Bool
  attemptsMade : Nat
  delays : List ℚ
  thrown : Option Nat
deriving Repr, DecidableEq

/-- Embedding of the `for (attempt = 0; attempt <= maxRetries; ...)` loop
of `retryWithBackoff`: try the attempt; on a non-retryable error or an
exhausted budget rethrow; otherwise sleep
`initialDelay * 2 ^ attempt + jitter(attempt)` and continue.  `fuel` is
an upper bound on remaining iterations (`maxRetries + 1 - attempt` at the
top call), giving a structurally recursive total function. -/
def retryFrom (outcome : Nat → AttemptOutcome) (jitter : Nat → ℚ)
    (maxRetries : Nat) (initialDelay : ℚ) :
    Nat → Nat → List ℚ → RetryTrace
  | 0, attempt, delays => ⟨false, attempt, delays, none⟩
  | fuel + 1, attempt, delays =>
    match outcome attempt with
    | .ok => ⟨true, attempt + 1, delays, none⟩
    | .fail status =>
      if isRetryable status = false ∨ maxRetries ≤ attempt then
        ⟨false, attempt + 1, delays, some status⟩
      else
        retryFrom outcome jitter maxRetries initialDelay fuel (attempt + 1)
          (delays ++ [initialDelay * 2 ^ attempt + jitter attempt])

/-- Embedding of `retryWithBackoff` (defaults `maxRetries = 3`,
`initialDelay = 1000` are passed explicitly at every use). -/
def retryWithBackoff (outcome : Nat → AttemptOutcome) (jitter : Nat → ℚ)
    (maxRetries : Nat) (initialDelay : ℚ) : RetryTrace :=
  retryFrom outcome jitter maxRetries initialDelay (maxRetries + 1) 0 []

theorem retryFrom_ok (outcome : Nat → AttemptOutcome) (jitter : Nat → ℚ)
    (mr : Nat) (idl : ℚ) (fuel attempt : Nat) (delays : List ℚ)
    (hf : 0 < fuel) (h : outcome attempt = .ok) :
    retryFrom outcome jitter mr idl fuel attempt delays
      = ⟨true, attempt + 1, delays, none⟩ := by
  cases fuel with
  | zero => omega
  | succ f => simp only [retryFrom, h]

theorem retryFrom_stop (outcome : Nat → AttemptOutcome) (jitter : Nat → ℚ)
    (mr : Nat) (idl : ℚ) (fuel attempt : Nat) (delays : List ℚ) (s : Nat)
    (hf : 0 < fuel) (h : outcome attempt = .fail s)
    (hstop : isRetryable s = false ∨ mr ≤ attempt) :
    retryFrom outcome jitter mr idl fuel attempt delays
      = ⟨false, attempt + 1, delays, some s⟩ := by
  cases fuel with
  | zero => omega
  | succ f =>
    simp only [retryFrom, h]
    rw [if_pos hstop]

theorem retryFrom_retry (outcome : Nat → AttemptOutcome) (jitter : Nat → ℚ)
    (mr : Nat) (idl : ℚ) (fuel attempt : Nat) (delays : List ℚ) (s : Nat)
    (hf : 0 < fuel) (h : outcome attempt = .fail s)
    (hr : isRetryable s = true) (hlt : attempt < mr) :
    retryFrom outcome jitter mr idl fuel attempt delays
      = retryFrom outcome jitter mr idl (fuel - 1) (attempt + 1)
          (delays ++ [idl * 2 ^ attempt + jitter attempt]) := by
  cases fuel with
  | zero => omega
  | succ f =>
    simp only [retryFrom, h]
    rw [if_neg (by simp [hr]; omega)]
    simp

theorem backoff_delay_bounds (jitter : Nat → ℚ)
    (hj : ∀ i, 0 ≤ jitter i ∧ jitter i < 200) (k : Nat) :
    1000 * 2 ^ k ≤ 1000 * (2 : ℚ) ^ k + jitter k
    ∧ 1000 * (2 : ℚ) ^ k + jitter k < 1000 * 2 ^ k + 200 := by
  obtain ⟨h1, h2⟩ := hj k
  constructor <;> linarith

/-- C5: through the retrying gateway with `maxRetries = 3` and
`initialDelay = 1000` ms, at most 3 additional attempts run (at most 4
total, at most 3 delays); the delay before the 1-indexed retry `n + 1`
lies in `[1000·2^n, 1000·2^n + 200)`; a delay is only ever slept after a
retryable failure (status 429 or ≥ 500); a non-retryable first failure
propagates immediately with zero retries; and a request failing 429 three
times then succeeding resolves with exactly 3 delays observed. -/
theorem retry_policy (outcome : Nat → AttemptOutcome) (jitter : Nat → ℚ) (n s : Nat)
    (hj : ∀ i, 0 ≤ jitter i ∧ jitter i < 200) :
    (retryWithBackoff outcome jitter 3 1000).attemptsMade ≤ 4
    ∧ (retryWithBackoff outcome jitter 3 1000).delays.length ≤ 3
    ∧ (n < (retryWithBackoff outcome jitter 3 1000).delays.length →
        1000 * 2 ^ n ≤ (retryWithBackoff outcome jitter 3 1000).delays.getD n 0
        ∧ (retryWithBackoff outcome jitter 3 1000).delays.getD n 0
            < 1000 * 2 ^ n + 200)
    ∧ (n < (retryWithBackoff outcome jitter 3 1000).delays.length →
        attemptRetryable (outcome n) = true)
    ∧ (outcome 0 = .fail s → isRetryable s = false →
        retryWithBackoff outcome jitter 3 1000 = ⟨false, 1, [], some s⟩)
    ∧ ((outcome 0 = .fail 429 ∧ outcome 1 = .fail 429 ∧ outcome 2 = .fail 429
        ∧ outcome 3 = .ok) →
        (retryWithBackoff outcome jitter 3 1000).ok = true
        ∧ (retryWithBackoff outcome jitter 3 1000).delays.length = 3) := by
  rcases h0 : outcome 0 with _ | s0
  · have e : retryWithBackoff outcome jitter 3 1000 = ⟨true, 1, [], none⟩ := by
      unfold retryWithBackoff
      rw [retryFrom_ok outcome jitter 3 1000 4 0 [] (by omega) h0]
    refine ⟨by simp [e], by simp [e], ?_, ?_, ?_, ?_⟩
    · intro hn; rw [e] at hn; simp at hn
    · intro hn; rw [e] at hn; simp at hn
    · intro hc _; exact absurd hc (by simp)
    · rintro ⟨hf0, _, _, _⟩; exact absurd hf0 (by simp)
  by_cases hr0 : isRetryable s0 = true
  case neg =>
    have hr0f : isRetryable s0 = false := by simpa using hr0
    have e : retryWithBackoff outcome jitter 3 1000 = ⟨false, 1, [], some s0⟩ := by
      unfold retryWithBackoff
      rw [retryFrom_stop outcome jitter 3 1000 4 0 [] s0 (by omega) h0 (Or.inl hr0f)]
    refine ⟨by simp [e], by simp [e], ?_, ?_, ?_, ?_⟩
    · intro hn; rw [e] at hn; simp at hn
    · intro hn; rw [e] at hn; simp at hn
    · intro hc _
      injection hc with hc
      subst hc
      exact e
    · rintro ⟨hf0, _, _, _⟩
      injection hf0 with hf0
      subst hf0
      exact absurd hr0f (by decide)
  rcases h1 : outcome 1 with _ | s1
  · have e : retryWithBackoff outcome jitter 3 1000
        = ⟨true, 2, [1000 * 2 ^ 0 + jitter 0], none⟩ := by
      unfold retryWithBackoff
      rw [retryFrom_retry outcome jitter 3 1000 4 0 [] s0 (by omega) h0 hr0 (by omega)]
      rw [retryFrom_ok outcome jitter 3 1000 (4 - 1) 1 _ (by omega) h1]
      simp
    refine ⟨by simp [e], by simp [e], ?_, ?_, ?_, ?_⟩
    · intro hn
      rw [e] at hn ⊢
      simp at hn
      rcases n with _ | n
      · simp only [List.getD_cons_zero]
        exact backoff_delay_bounds jitter hj 0
      · omega
    · intro hn
      rw [e] at hn
      simp at hn
      rcases n with _ | n
      · rw [h0]; simp [attemptRetryable, hr0]
      · omega
    · intro hc hrc
      injection hc with hc
      subst hc
      rw [hr0] at hrc
      exact absurd hrc (by simp)
    · rintro ⟨_, hf1, _, _⟩; exact absurd hf1 (by simp)
  by_cases hr1 : isRetryable s1 = true
  case neg =>
    have hr1f : isRetryable s1 = false := by simpa using hr1
    have e : retryWithBackoff outcome jitter 3 1000
        = ⟨false, 2, [1000 * 2 ^ 0 + jitter 0], some s1⟩ := by
      unfold retryWithBackoff
      rw [retryFrom_retry outcome jitter 3 1000 4 0 [] s0 (by omega) h0 hr0 (by omega)]
      rw [retryFrom_stop outcome jitter 3 1000 (4 - 1) 1 _ s1 (by omega) h1
        (Or.inl hr1f)]
      simp
    refine ⟨by simp [e], by simp [e], ?_, ?_, ?_, ?_⟩
    · intro hn
      rw [e] at hn ⊢
      simp at hn
      rcases n with _ | n
      · simp only [List.getD_cons_zero]
        exact backoff_delay_bounds jitter hj 0
      · omega
    · intro hn
      rw [e] at hn
      simp at hn
      rcases n with _ | n
      · rw [h0]; simp [attemptRetryable, hr0]
      · omega
    · intro hc hrc
      injection hc with hc
      subst hc
      rw [hr0] at hrc
      exact absurd hrc (by simp)
    · rintro ⟨_, hf1, _, _⟩
      injection hf1 with hf1
      subst hf1
      exact absurd hr1f (by decide)
  rcases h2 : outcome 2 with _ | s2
  · have e : retryWithBackoff outcome jitter 3 1000
        = ⟨true, 3, [1000 * 2 ^ 0 + jitter 0, 1000 * 2 ^ 1 + jitter 1], none⟩ := by
      unfold retryWithBackoff
      rw [retryFrom_retry outcome jitter 3 1000 4 0 [] s0 (by omega) h0 hr0 (by omega)]
      rw [retryFrom_retry outcome jitter 3 1000 (4 - 1) 1 _ s1 (by omega) h1 hr1
        (by omega)]
      rw [retryFrom_ok outcome jitter 3 1000 (4 - 1 - 1) 2 _ (by omega) h2]
      simp
    refine ⟨by simp [e], by simp [e], ?_, ?_, ?_, ?_⟩
    · intro hn
      rw [e] at hn ⊢
      simp at hn
      rcases n with _ | n
      · simp only [List.getD_cons_zero]
        exact backoff_delay_bounds jitter hj 0
      rcases n with _ | n
      · simp only [List.getD_cons_succ, List.getD_cons_zero]
        exact backoff_delay_bounds jitter hj 1
      · omega
    · intro hn
      rw [e] at hn
      simp at hn
      rcases n with _ | n
      · rw [h0]; simp [attemptRetryable, hr0]
      rcases n with _ | n
      · rw [h1]; simp [attemptRetryable, hr1]
      · omega
    · intro hc hrc
      injection hc with hc
      subst hc
      rw [hr0] at hrc
      exact absurd hrc (by simp)
    · rintro ⟨_, _, hf2, _⟩; exact absurd hf2 (by simp)
  by_cases hr2 : isRetryable s2 = true
  case neg =>
    have hr2f : isRetryable s2 = false := by simpa using hr2
    have e : retryWithBackoff outcome jitter 3 1000
        = ⟨false, 3, [1000 * 2 ^ 0 + jitter 0, 1000 * 2 ^ 1 + jitter 1],
            some s2⟩ := by
      unfold retryWithBackoff
      rw [retryFrom_retry outcome jitter 3 1000 4 0 [] s0 (by omega) h0 hr0 (by omega)]
      rw [retryFrom_retry outcome jitter 3 1000 (4 - 1) 1 _ s1 (by omega) h1 hr1
        (by omega)]
      rw [retryFrom_stop outcome jitter 3 1000 (4 - 1 - 1) 2 _ s2 (by omega) h2
        (Or.inl hr2f)]
      simp
    refine ⟨by simp [e], by simp [e], ?_, ?_, ?_, ?_⟩
    · intro hn
      rw [e] at hn ⊢
      simp at hn
      rcases n with _ | n
      · simp only [List.getD_cons_zero]
        exact backoff_delay_bounds jitter hj 0
      rcases n with _ | n
      · simp only [List.getD_cons_succ, List.getD_cons_zero]
        exact backoff_delay_bounds jitter hj 1
      · omega
    · intro hn
      rw [e] at hn
      simp at hn
      rcases n with _ | n
      · rw [h0]; simp [attemptRetryable, hr0]
      rcases n with _ | n
      · rw [h1]; simp [attemptRetryable, hr1]
      · omega
    · intro hc hrc
      injection hc with hc
      subst hc
      rw [hr0] at hrc
      exact absurd hrc (by simp)
    · rintro ⟨_, _, hf2, _⟩
      injection hf2 with hf2
      subst hf2
      exact absurd hr2f (by decide)
  rcases h3 : outcome 3 with _ | s3
  · have e : retryWithBackoff outcome jitter 3 1000
        = ⟨true, 4, [1000 * 2 ^ 0 + jitter 0, 1000 * 2 ^ 1 + jitter 1,
            1000 * 2 ^ 2 + jitter 2], none⟩ := by
      unfold retryWithBackoff
      rw [retryFrom_retry outcome jitter 3 1000 4 0 [] s0 (by omega) h0 hr0 (by omega)]
      rw [retryFrom_retry outcome jitter 3 1000 (4 - 1) 1 _ s1 (by omega) h1 hr1
        (by omega)]
      rw [retryFrom_retry outcome jitter 3 1000 (4 - 1 - 1) 2 _ s2 (by omega) h2 hr2
        (by omega)]
      rw [retryFrom_ok outcome jitter 3 1000 (4 - 1 - 1 - 1) 3 _ (by omega) h3]
      simp
    refine ⟨by simp [e], by simp [e], ?_, ?_, ?_, by rintro ⟨_, _, _, _⟩; simp [e]⟩
    · intro hn
      rw [e] at hn ⊢
      simp at hn
      rcases n with _ | n
      · simp only [List.getD_cons_zero]
        exact backoff_delay_bounds jitter hj 0
      rcases n with _ | n
      · simp only [List.getD_cons_succ, List.getD_cons_zero]
        exact backoff_delay_bounds jitter hj 1
      rcases n with _ | n
      · simp only [List.getD_cons_succ, List.getD_cons_zero]
        exact backoff_delay_bounds jitter hj 2
      · omega
    · intro hn
      rw [e] at hn
      simp at hn
      rcases n with _ | n
      · rw [h0]; simp [attemptRetryable, hr0]
      rcases n with _ | n
      · rw [h1]; simp [attemptRetryable, hr1]
      rcases n with _ | n
      · rw [h2]; simp [attemptRetryable, hr2]
      · omega
    · intro hc hrc
      injection hc with hc
      subst hc
      rw [hr0] at hrc
      exact absurd hrc (by simp)
  · have e : retryWithBackoff outcome jitter 3 1000
        = ⟨false, 4, [1000 * 2 ^ 0 + jitter 0, 1000 * 2 ^ 1 + jitter 1,
            1000 * 2 ^ 2 + jitter 2], some s3⟩ := by
      unfold retryWithBackoff
      rw [retryFrom_retry outcome jitter 3 1000 4 0 [] s0 (by omega) h0 hr0 (by omega)]
      rw [retryFrom_retry outcome jitter 3 1000 (4 - 1) 1 _ s1 (by omega) h1 hr1
        (by omega)]
      rw [retryFrom_retry outcome jitter 3 1000 (4 - 1 - 1) 2 _ s2 (by omega) h2 hr2
        (by omega)]
      rw [retryFrom_stop outcome jitter 3 1000 (4 - 1 - 1 - 1) 3 _ s3 (by omega) h3
        (Or.inr (by omega))]
      simp
    refine ⟨by simp [e], by simp [e], ?_, ?_, ?_, ?_⟩
    · intro hn
      rw [e] at hn ⊢
      simp at hn
      rcases n with _ | n
      · simp only [List.getD_cons_zero]
        exact backoff_delay_bounds jitter hj 0
      rcases n with _ | n
      · simp only [List.getD_cons_succ, List.getD_cons_zero]
        exact backoff_delay_bounds jitter hj 1
      rcases n with _ | n
      · simp only [List.getD_cons_succ, List.getD_cons_zero]
        exact backoff_delay_bounds jitter hj 2
      · omega
    · intro hn
      rw [e] at hn
      simp at hn
      rcases n with _ | n
      · rw [h0]; simp [attemptRetryable, hr0]
      rcases n with _ | n
      · rw [h1]; simp [attemptRetryable, hr1]
      rcases n with _ | n
      · rw [h2]; simp [attemptRetryable, hr2]
      · omega
    · intro hc hrc
      injection hc with hc
      subst hc
      rw [hr0] at hrc
      exact absurd hrc (by simp)
    · rintro ⟨_, _, _, hf3⟩; exact absurd hf3 (by simp)

/-- A request that fails with 429 three times, then succeeds. -/
def scenario429 : Nat → AttemptOutcome := fun i => if i < 3 then .fail 429 else .ok

/-- Jitter source that always draws 0. -/
def zeroJitter : Nat → ℚ := fun _ => 0

/-- Witness instantiating the retry-policy theorem at the
three-429s-then-success scenario with zero jitter. -/
theorem retry_policy_witness :
    (retryWithBackoff scenario429 zeroJitter 3 1000).attemptsMade ≤ 4
    ∧ (retryWithBackoff scenario429 zeroJitter 3 1000).delays.length ≤ 3
    ∧ (0 < (retryWithBackoff scenario429 zeroJitter 3 1000).delays.length →
        1000 * 2 ^ 0 ≤ (retryWithBackoff scenario429 zeroJitter 3 1000).delays.getD 0 0
        ∧ (retryWithBackoff scenario429 zeroJitter 3 1000).delays.getD 0 0
            < 1000 * 2 ^ 0 + 200)
    ∧ (0 < (retryWithBackoff scenario429 zeroJitter 3 1000).delays.length →
        attemptRetryable (scenario429 0) = true)
    ∧ (scenario429 0 = .fail 404 → isRetryable 404 = false →
        retryWithBackoff scenario429 zeroJitter 3 1000 = ⟨false, 1, [], some 404⟩)
    ∧ ((scenario429 0 = .fail 429 ∧ scenario429 1 = .fail 429
        ∧ scenario429 2 = .fail 429 ∧ scenario429 3 = .ok) →
        (retryWithBackoff scenario429 zeroJitter 3 1000).ok = true
        ∧ (retryWithBackoff scenario429 zeroJitter 3 1000).delays.length = 3) :=
  retry_policy scenario429 zeroJitter 0 404
    (fun _ => ⟨le_refl 0, by show (0 : ℚ) < 200; decide⟩)

/-! ## Playback device reconciliation (shared/player.ts playTrack) -/

/-- A device as reported by the devices listing endpoint. -/
structure SpotifyDevice where
  id : String
  name : String
  deviceType : String
  is_active : Bool
  is_private_session : Bool
  is_restricted : Bool
  volume_percent : Nat
deriving Repr, DecidableEq

/-- The player manager's mode after initialization. -/
inductive PlaybackMode where
  | sdk
  | connect
  | uninitialized
deriving Repr, DecidableEq

/-- A play command as put to `/me/player/play`: the optional `device_id`
query parameter and the request body's `uris`. -/
structure PlayCommand where
  deviceId : Option String
  uris : List String
deriving Repr, DecidableEq

/-- Embedding of the device-selection step of
`SpotifyPlayerManager.playTrack` (shared/player.ts): query the device
list; if any device is already active, issue the play command with no
`device_id` (the account's current playback context); otherwise target
the local SDK device when one is ready, fall back to the Connect path
with no device id, or fail (`none`) when the player was never
initialized.  The returned value is the first play command issued. -/
def playTrackFirstCommand (devices : List SpotifyDevice) (mode : PlaybackMode)
    (localDeviceId : Option String) (trackUri : String) : Option PlayCommand :=
  match devices.find? (·.is_active) with
  | some _ => some ⟨none, [trackUri]⟩
  | none =>
    match mode, localDeviceId with
    | .sdk, some d => some ⟨some d, [trackUri]⟩
    | .connect, _ => some ⟨none, [trackUri]⟩
    | _, _ => none

/-- C9: whenever the device list reports some active device, `playTrack`
issues its play command with no `device_id` — against the account's
current playback context — and in particular never targets the local SDK
device, whatever the player mode and stored local device id. -/
theorem playTrack_active_device_no_device_id (devices : List SpotifyDevice)
    (mode : PlaybackMode) (localDeviceId : Option String) (trackUri : String)
    (d : SpotifyDevice) (hd : d ∈ devices) (hactive : d.is_active = true) :
    playTrackFirstCommand devices mode localDeviceId trackUri
      = some ⟨none, [trackUri]⟩ := by
  unfold playTrackFirstCommand
  have hfind : (devices.find? (·.is_active)).isSome := by
    rw [List.find?_isSome]
    exact ⟨d, hd, hactive⟩
  cases hf : devices.find? (·.is_active) with
  | none => rw [hf] at hfind; simp at hfind
  | some dev => rfl

/-- A remote speaker currently marked active. -/
def activeSpeaker : SpotifyDevice := ⟨"dev9", "Speaker", "speaker", true, false, false, 60⟩

/-- Witness instantiating the active-device theorem: an active remote
speaker in the list, an SDK-ready local player — the command still
carries no device id. -/
theorem playTrack_active_device_no_device_id_witness :
    playTrackFirstCommand [activeSpeaker] .sdk (some "local1") "spotify:track:s1"
      = some ⟨none, ["spotify:track:s1"]⟩ :=
  playTrack_active_device_no_device_id [activeSpeaker] .sdk (some "local1")
    "spotify:track:s1" activeSpeaker (by decide) (by decide)
